import Mathlib

/-
  Verification development for the WunderGraph development-mode orchestrator.

  Shallow embedding of:
  - packages/sdk/src/operations/operations.ts  (operation factory, createQuery)
  - packages/sdk/src/graphql/operations.ts     (parseGraphQLOperations and
    its directive handlers)
  - cli/commands/up.go                         (the `up` command RunE flow,
    modelled as a deterministic event trace over an environment describing
    the outcomes of the external effects)
-/

namespace WunderGraph

/-! ## Part 1: operation factory (packages/sdk/src/operations/operations.ts) -/

/-- JavaScript `a || b` for an optional boolean `a` (`undefined` is falsy,
`false` is falsy, `true` is truthy). Models `live?.enable || true`. -/
def jsOrBool (a : Option Bool) (b : Bool) : Bool :=
  match a with
  | none => b
  | some x => x || b

/-- JavaScript `a || b` for an optional number `a` (`undefined` and `0` are
falsy). Numbers are modelled as integers; NaN is not modelled. Models
`live?.pollingIntervalSeconds || 5`. -/
def jsOrNum (a : Option Int) (b : Int) : Int :=
  match a with
  | none => b
  | some n => if n = 0 then b else n

/-- Live-query configuration, from `LiveQueryConfig` in operations.ts. -/
structure LiveQueryConfig where
  enable : Bool
  pollingIntervalSeconds : Int
deriving DecidableEq, Repr

/-- Role-based access lists of a built NodeJS operation. -/
structure RbacLists where
  requireMatchAll : List String
  requireMatchAny : List String
  denyMatchAll : List String
  denyMatchAny : List String
deriving DecidableEq, Repr

/-- Optional rbac input of `BaseOperationConfiguration` (each list may be
absent). -/
structure RbacInput where
  requireMatchAll : Option (List String)
  requireMatchAny : Option (List String)
  denyMatchAll : Option (List String)
  denyMatchAny : Option (List String)
deriving DecidableEq, Repr

/-- The caller-visible argument object of the factory's `query` constructor
(`createQuery`): handler and input schema are irrelevant to the claims and
omitted; absent fields are `none`. -/
structure CreateQueryInput where
  live : Option LiveQueryConfig
  requireAuthentication : Option Bool
  internal : Option Bool
  rbac : Option RbacInput
deriving DecidableEq, Repr

/-- The data part of `NodeJSOperation` built by the factory constructors
(handlers and schemas omitted). -/
structure NodeJSOperation where
  type : String
  internal : Bool
  requireAuthentication : Bool
  rbac : RbacLists
  liveQuery : LiveQueryConfig
deriving DecidableEq, Repr

/-- Embedding of `createQuery` from operations.ts lines 58-99: default
parameters `requireAuthentication = false`, `internal = false`; the returned
record uses JavaScript `||` defaults. `rbac?.x || []` keeps a present list
(arrays are truthy in JavaScript, including the empty array). -/
def createQuery (input : CreateQueryInput) : NodeJSOperation :=
  { type := "query"
    internal := (input.internal.getD false) || false
    requireAuthentication := input.requireAuthentication.getD false
    rbac :=
      { denyMatchAll := ((input.rbac.bind (·.denyMatchAll)).getD [])
        denyMatchAny := ((input.rbac.bind (·.denyMatchAny)).getD [])
        requireMatchAll := ((input.rbac.bind (·.requireMatchAll)).getD [])
        requireMatchAny := ((input.rbac.bind (·.requireMatchAny)).getD []) }
    liveQuery :=
      { enable := jsOrBool (input.live.map (·.enable)) true
        pollingIntervalSeconds := jsOrNum (input.live.map (·.pollingIntervalSeconds)) 5 } }

/-! ## Part 2: GraphQL operation parsing (packages/sdk/src/graphql/operations.ts)

The graphql-js library functions `parse`, `print`, `validate` and
`buildSchema`, and the JSON-Schema generation, are external to this
repository and outside the spec scope; they are abstracted: a file carries
the outcome of parsing its content, and an operation node carries the
validation errors `validate` reported for its hooks-stripped document.
Everything else (control flow, error handling, directive processing) is
translated from the source. -/

/-- Element of a ListValue argument: the rbac handler only inspects whether
an element is an EnumValue and, if so, its value; any other element kind is
collapsed into `other`. -/
inductive GqlListElem where
  | enumv (value : String)
  | other (kind : String)
deriving DecidableEq, Repr

/-- GraphQL const value AST node, restricted to the kinds the directive
handlers inspect (enum, string, int, boolean, list; `other` stands for any
further kind, carrying its kind name for error messages). -/
inductive GqlValue where
  | enumv (value : String)
  | strv (value : String)
  | intv (value : Int)
  | boolv (value : Bool)
  | listv (values : List GqlListElem)
  | other (kind : String)
deriving DecidableEq, Repr

/-- Kind name of a value, as used in thrown error messages. -/
def GqlValue.kindName : GqlValue → String
  | .enumv _ => "EnumValue"
  | .strv _ => "StringValue"
  | .intv _ => "IntValue"
  | .boolv _ => "BooleanValue"
  | .listv _ => "ListValue"
  | .other k => k

/-- Directive argument node. -/
structure GqlArgument where
  name : String
  value : GqlValue
deriving DecidableEq, Repr

/-- Directive node; `arguments` is `none` when the AST field is undefined. -/
structure GqlDirective where
  name : String
  arguments : Option (List GqlArgument)
deriving DecidableEq, Repr

/-- Variable definition node of an operation (name plus directives). -/
structure VariableDefinition where
  name : String
  directives : List GqlDirective
deriving DecidableEq, Repr

/-- One OperationDefinition node as the visitor enters it.
`validationErrors` abstracts `validate(parsedGraphQLSchema,
operationWithoutHooksVariables)` from lines 152-161. -/
structure OperationNode where
  operation : String
  variableDefinitions : List VariableDefinition
  directives : List GqlDirective
  validationErrors : List String
deriving DecidableEq, Repr

instance exceptDecidableEq {ε α : Type} [DecidableEq ε] [DecidableEq α] :
    DecidableEq (Except ε α) := fun a b =>
  match a, b with
  | .ok x, .ok y =>
    if h : x = y then isTrue (by rw [h]) else isFalse (by simp [h])
  | .error x, .error y =>
    if h : x = y then isTrue (by rw [h]) else isFalse (by simp [h])
  | .ok _, .error _ => isFalse (by simp)
  | .error _, .ok _ => isFalse (by simp)

/-- One entry of `graphql_operation_files`. The `parsed` field abstracts
`parse(operationFile.content)`: an error models the parse throwing, a list
models the OperationDefinition nodes the visitor enters. -/
structure GraphQLOperationFile where
  operation_name : String
  api_mount_path : String
  file_path : String
  content : String
  parsed : Except String (List OperationNode)
deriving DecidableEq, Repr

/-- LoadOperationsOutput restricted to the field parseGraphQLOperations
reads. -/
structure LoadOperationsOutput where
  graphql_operation_files : Option (List GraphQLOperationFile)
deriving DecidableEq, Repr

/-- Well-known claim types from the protobuf ClaimType enum, plus CUSTOM. -/
inductive ClaimType where
  | ISSUER | PROVIDER | SUBJECT | USERID | NAME | GIVEN_NAME | FAMILY_NAME
  | MIDDLE_NAME | NICKNAME | PREFERRED_USERNAME | PROFILE | PICTURE | WEBSITE
  | EMAIL | EMAIL_VERIFIED | GENDER | BIRTH_DATE | ZONE_INFO | LOCALE
  | LOCATION | CUSTOM
deriving DecidableEq, Repr

/-- Custom claim description supplied through the parse options. -/
structure CustomClaim where
  jsonPathComponents : List String
  type : String
  required : Bool
deriving DecidableEq, Repr

/-- The custom part of a ClaimConfig. -/
structure CustomClaimRecord where
  name : String
  jsonPathComponents : List String
  type : String
  required : Bool
deriving DecidableEq, Repr

/-- ClaimConfig pushed into AuthorizationConfig.claims. -/
structure ClaimConfig where
  variablePathComponents : List String
  claimType : ClaimType
  custom : Option CustomClaimRecord
deriving DecidableEq, Repr

/-- Variable injection kinds used by the handlers. -/
inductive InjectVariableKind where
  | UUID | DATE_TIME | ENVIRONMENT_VARIABLE
deriving DecidableEq, Repr

/-- VariableInjectionConfiguration pushed into
VariablesConfiguration.injectVariables. -/
structure VariableInjectionConfiguration where
  environmentVariableName : String
  dateFormat : String
  variablePathComponents : List String
  variableKind : InjectVariableKind
deriving DecidableEq, Repr

/-- Operation type enum; `INVALID` models the `-1` default branch of
parseOperationTypeNode. -/
inductive OperationType where
  | QUERY | MUTATION | SUBSCRIPTION | INVALID
deriving DecidableEq, Repr

/-- Role config of AuthorizationConfig. -/
structure OperationRoleConfig where
  requireMatchAll : List String
  requireMatchAny : List String
  denyMatchAll : List String
  denyMatchAny : List String
deriving DecidableEq, Repr

/-- AuthorizationConfig of an operation. -/
structure AuthorizationConfig where
  claims : List ClaimConfig
  roleConfig : OperationRoleConfig
deriving DecidableEq, Repr

/-- AuthenticationConfig of an operation. -/
structure AuthenticationConfig where
  required : Bool
deriving DecidableEq, Repr

/-- Mock-resolve part of HooksConfiguration. -/
structure MockResolveHooksConfiguration where
  enable : Bool
  subscriptionPollingIntervalMillis : Int
deriving DecidableEq, Repr

/-- HooksConfiguration of an operation. -/
structure HooksConfiguration where
  preResolve : Bool
  postResolve : Bool
  mutatingPreResolve : Bool
  mutatingPostResolve : Bool
  mockResolve : MockResolveHooksConfiguration
  httpTransportOnRequest : Bool
  httpTransportOnResponse : Bool
  customResolve : Bool
deriving DecidableEq, Repr

/-- VariablesConfiguration of an operation. -/
structure VariablesConfiguration where
  injectVariables : List VariableInjectionConfiguration
deriving DecidableEq, Repr

/-- GraphQLOperation descriptor, restricted to the fields the claims are
about; the JSON-Schema fields, Content, and the optional Mock / CacheConfig
/ LiveQuery / transformation fields are produced by out-of-scope schema
generation and are omitted. -/
structure GraphQLOperation where
  Name : String
  PathName : String
  OperationType : OperationType
  AuthenticationConfig : AuthenticationConfig
  AuthorizationConfig : AuthorizationConfig
  HooksConfiguration : HooksConfiguration
  VariablesConfiguration : VariablesConfiguration
  Internal : Bool
deriving DecidableEq, Repr

/-- ParsedOperations result record. -/
structure ParsedOperations where
  operations : List GraphQLOperation
deriving DecidableEq, Repr

/-- Parse options, restricted to the field that affects the modelled
behavior (custom claims; the other options only shape the omitted JSON
schemas). -/
structure ParseOperationsOptions where
  keepFromClaimVariables : Option Bool
  customClaims : Option (List (String × CustomClaim))
deriving DecidableEq, Repr

/-- Schema model: the one schema query the modelled code performs is
`getType(WG_ROLE)` with an EnumTypeDefinition astNode; `none` covers the
type being absent or not an enum. A missing `values` list behaves like an
empty one under the membership filter and is collapsed into it. -/
structure SchemaModel where
  wgRoleEnumValues : Option (List String)
deriving DecidableEq, Repr

/-- Default spread into every pushed VariableInjectionConfiguration
(lines 123-129). -/
def defaultVariableInjectionConfiguration :
    String × String := ("", "")

/-- Embedding of `directivesNamed` (lines 749-759): the directives on a
variable definition whose name is among the given names. -/
def directivesNamed (varDef : VariableDefinition) (directiveNames : List String) :
    List GqlDirective :=
  varDef.directives.filter (fun d => directiveNames.contains d.name)

/-- Embedding of `parseOperationTypeNode` (lines 657-668). -/
def parseOperationTypeNode (node : String) : OperationType :=
  if node = "subscription" then .SUBSCRIPTION
  else if node = "mutation" then .MUTATION
  else if node = "query" then .QUERY
  else .INVALID

/-- Embedding of `parseWellKnownClaim` (lines 455-485), as invoked with no
operation argument. -/
def parseWellKnownClaim (name : String) : Except String ClaimType :=
  let claims : List (String × ClaimType) :=
    [("ISSUER", .ISSUER), ("PROVIDER", .PROVIDER), ("SUBJECT", .SUBJECT),
     ("USERID", .USERID), ("NAME", .NAME), ("GIVEN_NAME", .GIVEN_NAME),
     ("FAMILY_NAME", .FAMILY_NAME), ("MIDDLE_NAME", .MIDDLE_NAME),
     ("NICKNAME", .NICKNAME), ("PREFERRED_USERNAME", .PREFERRED_USERNAME),
     ("PROFILE", .PROFILE), ("PICTURE", .PICTURE), ("WEBSITE", .WEBSITE),
     ("EMAIL", .EMAIL), ("EMAIL_VERIFIED", .EMAIL_VERIFIED),
     ("GENDER", .GENDER), ("BIRTH_DATE", .BIRTH_DATE),
     ("ZONE_INFO", .ZONE_INFO), ("LOCALE", .LOCALE), ("LOCATION", .LOCATION)]
  match claims.lookup name with
  | some c => .ok c
  | none => .error ("unhandled claim " ++ name)

/-- Embedding of `directiveInjectedVariablePathComponents` (lines 487-506):
path components for the injected variable; throws when the on: argument is
present but not a string. -/
def directiveInjectedVariablePathComponents (directive : GqlDirective)
    (varDef : VariableDefinition) (operation : GraphQLOperation) :
    Except String (List String) :=
  let onArg := (directive.arguments.getD []).find? (fun arg => arg.name = "on")
  let variableName := varDef.name
  match onArg with
  | some arg =>
    match arg.value with
    | .strv s => .ok (variableName :: s.splitOn ".")
    | v => .error ("at " ++ directive.name ++ " the on: argument on operation " ++
        operation.Name ++ " (" ++ variableName ++ ") must be a String, not " ++ v.kindName)
  | none => .ok [variableName]

/-- Embedding of `handleFromClaimDirective` (lines 508-549): resolves the
claim named by the directive, marks authentication required, and pushes the
claim config. -/
def handleFromClaimDirective (fromClaimDirective : GqlDirective)
    (varDef : VariableDefinition) (operation : GraphQLOperation)
    (customClaims : List (String × CustomClaim)) :
    Except String GraphQLOperation := do
  match fromClaimDirective.arguments with
  | none => .error ("fromClaim directive on operation " ++ operation.Name ++ " has no arguments")
  | some args =>
    match args.find? (fun arg => arg.name = "name") with
    | none => .error ("fromClaim on operation " ++ operation.Name ++ " does not have a name: argument")
    | some nameArg =>
      match nameArg.value with
      | .enumv claimName => do
        let variablePathComponents ←
          directiveInjectedVariablePathComponents fromClaimDirective varDef operation
        let claim : ClaimConfig ←
          match customClaims.lookup claimName with
          | some customClaim =>
            pure { variablePathComponents
                   claimType := ClaimType.CUSTOM
                   custom := some { name := claimName
                                    jsonPathComponents := customClaim.jsonPathComponents
                                    type := customClaim.type
                                    required := customClaim.required } }
          | none => do
            let ct ← parseWellKnownClaim claimName
            pure { variablePathComponents, claimType := ct, custom := none }
        pure { operation with
                AuthenticationConfig := { required := true }
                AuthorizationConfig := { operation.AuthorizationConfig with
                  claims := operation.AuthorizationConfig.claims ++ [claim] } }
      | v => .error ("fromClaim name: argument on operation " ++ operation.Name ++
          " must be a WG_CLAIM, not " ++ v.kindName)

/-- Embedding of `handleFromClaimDirectives` (lines 551-559). -/
def handleFromClaimDirectives (varDef : VariableDefinition)
    (operation : GraphQLOperation) (customClaims : List (String × CustomClaim)) :
    Except String GraphQLOperation :=
  (directivesNamed varDef ["fromClaim"]).foldlM
    (fun op d => handleFromClaimDirective d varDef op customClaims) operation

/-- Argument names of the jsonSchema directive that trigger a schema update
(the switch cases of lines 339-449). -/
def jsonSchemaArgNames : List String :=
  ["title", "description", "multipleOf", "maximum", "exclusiveMaximum",
   "minimum", "exclusiveMinimum", "maxLength", "minLength", "pattern",
   "maxItems", "minItems", "uniqueItems", "commonPattern"]

/-- Embedding of `handleJsonSchemaDirectives` (lines 316-453). The four
JSON-Schema fields it updates are omitted from the operation model, so the
visible behavior is its error behavior: each recognized argument computes
the injected variable path (which throws when the on: argument is not a
string); the operation value is otherwise unchanged. -/
def handleJsonSchemaDirectives (varDef : VariableDefinition)
    (operation : GraphQLOperation) : Except String GraphQLOperation :=
  (directivesNamed varDef ["jsonSchema"]).foldlM
    (fun op directive =>
      (directive.arguments.getD []).foldlM
        (fun op arg =>
          if jsonSchemaArgNames.contains arg.name then do
            let _ ← directiveInjectedVariablePathComponents directive varDef op
            pure op
          else pure op)
        op)
    operation

/-- Embedding of `handleUuidDirectives` (lines 583-592). -/
def handleUuidDirectives (varDef : VariableDefinition)
    (operation : GraphQLOperation) : Except String GraphQLOperation :=
  (directivesNamed varDef ["injectGeneratedUUID"]).foldlM
    (fun op directive => do
      let variablePathComponents ←
        directiveInjectedVariablePathComponents directive varDef op
      pure { op with VariablesConfiguration :=
        { injectVariables := op.VariablesConfiguration.injectVariables ++
            [{ environmentVariableName := defaultVariableInjectionConfiguration.1
               dateFormat := defaultVariableInjectionConfiguration.2
               variablePathComponents
               variableKind := InjectVariableKind.UUID }] } })
    operation

/-- Embedding of `handleInjectEnvironmentVariableDirectives`
(lines 561-581). -/
def handleInjectEnvironmentVariableDirectives (varDef : VariableDefinition)
    (operation : GraphQLOperation) : Except String GraphQLOperation :=
  (directivesNamed varDef ["injectEnvironmentVariable"]).foldlM
    (fun op directive => do
      match (directive.arguments.getD []).find? (fun arg => arg.name = "name") with
      | none => .error ("name: argument missing in injectEnvironmentVariable in operation " ++ op.Name)
      | some arg =>
        match arg.value with
        | .strv envName => do
          let variablePathComponents ←
            directiveInjectedVariablePathComponents directive varDef op
          pure { op with VariablesConfiguration :=
            { injectVariables := op.VariablesConfiguration.injectVariables ++
                [{ environmentVariableName := envName
                   dateFormat := defaultVariableInjectionConfiguration.2
                   variablePathComponents
                   variableKind := InjectVariableKind.ENVIRONMENT_VARIABLE }] } }
        | v => .error ("name: argument in injectEnvironmentVariable in operation " ++
            op.Name ++ " must be string, not " ++ v.kindName))
    operation

/-- Embedding of `getTimeFormat` (lines 594-618). -/
def getTimeFormat (timeFormat : String) : Except String String :=
  let availableTimeFormats : List (String × String) :=
    [("ISO8601", "2006-01-02T15:04:05Z07:00"),
     ("ANSIC", "Mon Jan _2 15:04:05 2006"),
     ("UnixDate", "Mon Jan _2 15:04:05 MST 2006"),
     ("RubyDate", "Mon Jan 02 15:04:05 -0700 2006"),
     ("RFC822", "02 Jan 06 15:04 MST"),
     ("RFC822Z", "02 Jan 06 15:04 -0700"),
     ("RFC850", "Monday, 02-Jan-06 15:04:05 MST"),
     ("RFC1123", "Mon, 02 Jan 2006 15:04:05 MST"),
     ("RFC1123Z", "Mon, 02 Jan 2006 15:04:05 -0700"),
     ("RFC3339", "2006-01-02T15:04:05Z07:00"),
     ("RFC3339Nano", "2006-01-02T15:04:05.999999999Z07:00"),
     ("Kitchen", "3:04PM"),
     ("Stamp", "Jan _2 15:04:05"),
     ("StampMilli", "Jan _2 15:04:05.000"),
     ("StampMicro", "Jan _2 15:04:05.000000"),
     ("StampNano", "Jan _2 15:04:05.000000000")]
  match availableTimeFormats.lookup timeFormat with
  | some f => .ok f
  | none => .error ("unknown time format " ++ timeFormat)

/-- Body of the forEach of `handleDateTimeDirectives` (lines 622-654) for
one injectCurrentDateTime directive. The local dateFormat value is computed
(its errors propagate) but the pushed configuration carries the fixed
literal of line 651, so the computed value is bound and then unused. -/
def handleDateTimeDirective (varDef : VariableDefinition)
    (directive : GqlDirective) (operation : GraphQLOperation) :
    Except String GraphQLOperation := do
  let formatArg := (directive.arguments.getD []).find? (fun arg => arg.name = "format")
  let customFormatArg := (directive.arguments.getD []).find? (fun arg => arg.name = "customFormat")
  if formatArg.isSome ∧ customFormatArg.isSome then
    .error ("injectCurrentDateTime in operation " ++ operation.Name ++
      " has both format: and customFormat: arguments")
  else do
    let _dateFormat : String ←
      match formatArg with
      | some arg =>
        match arg.value with
        | .enumv v => getTimeFormat v
        | v => .error ("format: argument in injectCurrentDateTime in operation " ++
            operation.Name ++ " must be an enum, not " ++ v.kindName)
      | none =>
        match customFormatArg with
        | some arg =>
          match arg.value with
          | .strv s => .ok s
          | v => .error ("customFormat: argument in injectCurrentDateTime in operation " ++
              operation.Name ++ " must be a String, not " ++ v.kindName)
        | none => .ok "2006-01-02T15:04:05Z07:00"
    let variablePathComponents ←
      directiveInjectedVariablePathComponents directive varDef operation
    pure { operation with VariablesConfiguration :=
      { injectVariables := operation.VariablesConfiguration.injectVariables ++
          [{ environmentVariableName := defaultVariableInjectionConfiguration.1
             dateFormat := "2006-01-02T15:04:05Z07:00"
             variablePathComponents
             variableKind := InjectVariableKind.DATE_TIME }] } }

/-- Embedding of `handleDateTimeDirectives` (lines 620-655). -/
def handleDateTimeDirectives (varDef : VariableDefinition)
    (operation : GraphQLOperation) : Except String GraphQLOperation :=
  (directivesNamed varDef ["injectCurrentDateTime"]).foldlM
    (fun op d => handleDateTimeDirective varDef d op) operation

/-- The initial operation record built at lines 173-242: authentication not
required, no claims, empty role lists, no injected variables, all hooks
disabled, not internal. -/
def mkBaseOperation (operationFile : GraphQLOperationFile) (node : OperationNode) :
    GraphQLOperation :=
  { Name := operationFile.operation_name
    PathName := operationFile.api_mount_path
    OperationType := parseOperationTypeNode node.operation
    AuthenticationConfig := { required := false }
    AuthorizationConfig :=
      { claims := []
        roleConfig :=
          { requireMatchAll := [], requireMatchAny := []
            denyMatchAll := [], denyMatchAny := [] } }
    HooksConfiguration :=
      { preResolve := false, postResolve := false
        mutatingPreResolve := false, mutatingPostResolve := false
        mockResolve := { enable := false, subscriptionPollingIntervalMillis := 0 }
        httpTransportOnRequest := false, httpTransportOnResponse := false
        customResolve := false }
    VariablesConfiguration := { injectVariables := [] }
    Internal := false }

/-- The five directive handlers applied to one variable definition in source
order (lines 243-249); any thrown error propagates to the per-file catch. -/
def applyVariableDirectiveHandlers (customClaims : List (String × CustomClaim))
    (varDef : VariableDefinition) (operation : GraphQLOperation) :
    Except String GraphQLOperation := do
  let op ← handleFromClaimDirectives varDef operation customClaims
  let op ← handleJsonSchemaDirectives varDef op
  let op ← handleUuidDirectives varDef op
  let op ← handleDateTimeDirectives varDef op
  let op ← handleInjectEnvironmentVariableDirectives varDef op
  pure op

/-- JavaScript `[...new Set(xs)]`: deduplication keeping the first
occurrence of each element, in insertion order. -/
def jsSetDedup (seen : List String) : List String → List String
  | [] => []
  | x :: xs =>
    if seen.contains x then jsSetDedup seen xs
    else x :: jsSetDedup (x :: seen) xs

/-- One argument of the rbac directive merged into the role config
(lines 253-287): only ListValue arguments are considered; enum elements keep
their value, any other element maps to the empty string; values not in the
WG_ROLE enum are dropped; the target list is unioned with Set semantics. -/
def applyRbacArg (enumValues : List String) (arg : GqlArgument)
    (op : GraphQLOperation) : GraphQLOperation :=
  match arg.value with
  | .listv vs =>
    let values := (vs.map (fun v =>
        match v with
        | .enumv s => s
        | .other _ => "")).filter (fun v => enumValues.contains v)
    let rc := op.AuthorizationConfig.roleConfig
    if arg.name = "requireMatchAll" then
      { op with AuthorizationConfig := { op.AuthorizationConfig with roleConfig :=
          { rc with requireMatchAll := jsSetDedup [] (rc.requireMatchAll ++ values) } } }
    else if arg.name = "requireMatchAny" then
      { op with AuthorizationConfig := { op.AuthorizationConfig with roleConfig :=
          { rc with requireMatchAny := jsSetDedup [] (rc.requireMatchAny ++ values) } } }
    else if arg.name = "denyMatchAll" then
      { op with AuthorizationConfig := { op.AuthorizationConfig with roleConfig :=
          { rc with denyMatchAll := jsSetDedup [] (rc.denyMatchAll ++ values) } } }
    else if arg.name = "denyMatchAny" then
      { op with AuthorizationConfig := { op.AuthorizationConfig with roleConfig :=
          { rc with denyMatchAny := jsSetDedup [] (rc.denyMatchAny ++ values) } } }
    else op
  | _ => op

/-- The rbac directive handling of lines 251-288: runs only when the schema
has a WG_ROLE enum, and only over the first rbac directive of the operation
node. -/
def applyRbac (wgRoleEnumValues : Option (List String)) (node : OperationNode)
    (op : GraphQLOperation) : GraphQLOperation :=
  match wgRoleEnumValues with
  | none => op
  | some enumValues =>
    match node.directives.find? (fun d => d.name = "rbac") with
    | none => op
    | some rbac =>
      (rbac.arguments.getD []).foldl (fun op arg => applyRbacArg enumValues arg op) op

/-- The final authentication adjustment of lines 289-300: a non-zero total
of role-list lengths, or a non-empty claim list, forces
AuthenticationConfig.required. -/
def finalizeAuth (op : GraphQLOperation) : GraphQLOperation :=
  let op :=
    if op.AuthorizationConfig.roleConfig.denyMatchAny.length +
        op.AuthorizationConfig.roleConfig.denyMatchAll.length +
        op.AuthorizationConfig.roleConfig.requireMatchAll.length +
        op.AuthorizationConfig.roleConfig.requireMatchAny.length ≠ 0 then
      { op with AuthenticationConfig := { required := true } }
    else op
  if op.AuthorizationConfig.claims.length ≠ 0 then
    { op with AuthenticationConfig := { required := true } }
  else op

/-- Building the descriptor for one validated OperationDefinition node
(lines 171-300 after validation): base record, per-variable directive
handlers, internalOperation flag, rbac merging, final authentication
adjustment. -/
def buildOperation (wgRoleEnumValues : Option (List String))
    (customClaims : List (String × CustomClaim))
    (operationFile : GraphQLOperationFile) (node : OperationNode) :
    Except String GraphQLOperation := do
  let base := mkBaseOperation operationFile node
  let op ← node.variableDefinitions.foldlM
    (fun op v => applyVariableDirectiveHandlers customClaims v op) base
  let op := { op with
    Internal := (node.directives.find? (fun d => d.name = "internalOperation")).isSome }
  let op := applyRbac wgRoleEnumValues node op
  pure (finalizeAuth op)

/-- Logger.error events emitted by parseGraphQLOperations, one constructor
per distinct message shape. -/
inductive LogEvent where
  | errorValidation (filePath : String)
  | errorSkipping
  | errorException (message : String)
  | errorDocContent (content : String)
  | errorNoOperationsFound
  | errorFileExtension
  | errorNaming
deriving DecidableEq, Repr

/-- Log lines of the catch block at lines 305-311. -/
def catchLogs (e : String) (operationFile : GraphQLOperationFile) : List LogEvent :=
  [LogEvent.errorException e,
   LogEvent.errorDocContent operationFile.content,
   LogEvent.errorNoOperationsFound,
   LogEvent.errorFileExtension,
   LogEvent.errorNaming]

/-- The visitor over the OperationDefinition nodes of one parsed file:
a node with validation errors is logged and skipped (lines 162-169) and the
remaining nodes are still visited; a throwing node aborts the visit, keeping
the operations already pushed and surfacing the error to the file-level
catch. -/
def visitOperationNodes (wgRoleEnumValues : Option (List String))
    (customClaims : List (String × CustomClaim))
    (operationFile : GraphQLOperationFile) :
    List OperationNode → List LogEvent × List GraphQLOperation × Option String
  | [] => ([], [], none)
  | node :: rest =>
    if node.validationErrors.length > 0 then
      let r := visitOperationNodes wgRoleEnumValues customClaims operationFile rest
      (LogEvent.errorValidation operationFile.file_path :: LogEvent.errorSkipping :: r.1,
        r.2.1, r.2.2)
    else
      match buildOperation wgRoleEnumValues customClaims operationFile node with
      | .error e => ([], [], some e)
      | .ok op =>
        let r := visitOperationNodes wgRoleEnumValues customClaims operationFile rest
        (r.1, op :: r.2.1, r.2.2)

/-- Processing of one operation file inside the try/catch of lines 144-312:
a parse failure, or an error thrown while visiting, lands in the catch block
and is logged; either way the function returns normally with the operations
collected so far for this file. -/
def processOperationFile (wgRoleEnumValues : Option (List String))
    (customClaims : List (String × CustomClaim))
    (operationFile : GraphQLOperationFile) :
    List LogEvent × List GraphQLOperation :=
  match operationFile.parsed with
  | .error e => (catchLogs e operationFile, [])
  | .ok nodes =>
    match visitOperationNodes wgRoleEnumValues customClaims operationFile nodes with
    | (ls, ops, none) => (ls, ops)
    | (ls, ops, some e) => (ls ++ catchLogs e operationFile, ops)

/-- Sequential fold over the operation files of lines 144-312
(`loadOperationsOutput.graphql_operation_files?.forEach`): logs and
operations are accumulated in order. -/
def processOperationFiles (wgRoleEnumValues : Option (List String))
    (customClaims : List (String × CustomClaim)) :
    List GraphQLOperationFile → List LogEvent × List GraphQLOperation
  | [] => ([], [])
  | f :: fs =>
    let r := processOperationFile wgRoleEnumValues customClaims f
    let rest := processOperationFiles wgRoleEnumValues customClaims fs
    (r.1 ++ rest.1, r.2 ++ rest.2)

/-- Embedding of `parseGraphQLOperations` (lines 131-314): always returns a
ParsedOperations value (every throw inside file processing is caught at the
per-file catch); alongside it the Logger.error events are collected. -/
def parseGraphQLOperations (schema : SchemaModel)
    (loadOperationsOutput : LoadOperationsOutput)
    (options : ParseOperationsOptions) :
    List LogEvent × ParsedOperations :=
  let files := loadOperationsOutput.graphql_operation_files.getD []
  let customClaims := options.customClaims.getD []
  let r := processOperationFiles schema.wgRoleEnumValues customClaims files
  (r.1, { operations := r.2 })

/-! ## Part 3: the up command (cli/commands/up.go)

The RunE function is modelled as a deterministic event trace over an
environment recording the outcomes of the external effects (which files
exist, whether each build or start succeeds, the stack resources, the
content the config artifact parses to). Every creation, spawn, log and
build action of the source becomes one trace event, in source order;
early returns truncate the trace exactly where the source returns. -/

/-- Resource kinds of the stack supervisor (`stack.S3` is the one the
rewrite looks for). -/
inductive StackResourceKind where
  | S3
  | Other (name : String)
deriving DecidableEq, Repr

/-- A discovered stack resource: port-id to host:port assignments backing
`GetHostPort`. -/
structure StackResource where
  hostPorts : List (String × String)
deriving DecidableEq, Repr

/-- Modelled from the spec: the stack package is not under src; section 4.4
exposes the connection endpoint (host, port) of each running resource
through a lookup by port id. -/
def StackResource.getHostPort (r : StackResource) (portID : String) : String :=
  (r.hostPorts.lookup portID).getD ""

/-- Modelled from the spec: `stack.GetDefaultS3PortID()` from the stack
package (not under src), a fixed identifier of the default S3 port. -/
def getDefaultS3PortID : String := "s3-default"

/-- Kinds of a wgpb ConfigurationVariable that the rewrite manipulates. -/
inductive ConfigurationVariableKind where
  | STATIC_CONFIGURATION_VARIABLE
  | ENVIRONMENT_VARIABLE_CONFIGURATION_VARIABLE
  | PLACEHOLDER_CONFIGURATION_VARIABLE
deriving DecidableEq, Repr

/-- A wgpb ConfigurationVariable restricted to the two fields the rewrite
sets. -/
structure ConfigurationVariable where
  kind : ConfigurationVariableKind
  staticVariableContent : String
deriving DecidableEq, Repr

/-- One S3 upload provider configuration of the parsed node config. -/
structure S3UploadConfiguration where
  name : String
  endpoint : ConfigurationVariable
deriving DecidableEq, Repr

/-- The Api part of the parsed node config (restricted to the field the
rewrite touches). -/
structure WunderNodeApi where
  s3UploadConfiguration : List S3UploadConfiguration
deriving DecidableEq, Repr

/-- The parsed WunderNodeConfig. -/
structure WunderNodeConfig where
  api : WunderNodeApi
deriving DecidableEq, Repr

/-- The in-memory S3 endpoint rewrite closure passed to ReadAndCreateConfig
by the config-artifact watcher callback (up.go lines 298-309): for every
stack resource of kind S3, every S3 upload configuration gets its endpoint
content set to the resource host:port for the default S3 port id, and its
endpoint kind set to STATIC_CONFIGURATION_VARIABLE. -/
def watcherS3Rewrite (resources : List (StackResourceKind × StackResource))
    (cfg : WunderNodeConfig) : WunderNodeConfig :=
  resources.foldl
    (fun cfg sr =>
      if sr.1 = StackResourceKind.S3 then
        { cfg with api := { cfg.api with s3UploadConfiguration :=
            cfg.api.s3UploadConfiguration.map (fun s3Cfg =>
              { s3Cfg with endpoint :=
                  { staticVariableContent := sr.2.getHostPort getDefaultS3PortID
                    kind := ConfigurationVariableKind.STATIC_CONFIGURATION_VARIABLE } }) } }
      else cfg)
    cfg

/-- The in-memory S3 endpoint rewrite closure passed to ReadAndCreateConfig
by the explicit initial parse after node start (up.go lines 346-358),
embedded separately because the source spells the closure out a second
time. -/
def initialS3Rewrite (resources : List (StackResourceKind × StackResource))
    (cfg : WunderNodeConfig) : WunderNodeConfig :=
  resources.foldl
    (fun cfg sr =>
      if sr.1 = StackResourceKind.S3 then
        { cfg with api := { cfg.api with s3UploadConfiguration :=
            cfg.api.s3UploadConfiguration.map (fun s3Cfg =>
              { s3Cfg with endpoint :=
                  { staticVariableContent := sr.2.getHostPort getDefaultS3PortID
                    kind := ConfigurationVariableKind.STATIC_CONFIGURATION_VARIABLE } }) } }
      else cfg)
    cfg

/-- Modelled from the spec: `node.ReadAndCreateConfig` lives in pkg/node,
which is not under src. Per section 6 of the spec it parses the on-disk
artifact as JSON and the patch is applied in-memory after the parse — the
artifact itself is not rewritten — so it returns the disk content unchanged
together with either a parse failure or the patched configuration. The disk
content is modelled post-parse: `none` stands for a file that is missing or
fails to parse. -/
def readAndCreateConfig (diskContent : Option WunderNodeConfig)
    (patch : WunderNodeConfig → WunderNodeConfig) :
    Option WunderNodeConfig × Except String WunderNodeConfig :=
  (diskContent,
    match diskContent with
    | none => Except.error "failed to read config"
    | some cfg => Except.ok (patch cfg))

/-- The config-artifact watcher callback of up.go lines 297-316: parse the
artifact, apply the S3 endpoint rewrite, and hand the patched configuration
to the push channel; returns the disk content after the callback and the
value pushed (or the propagated error). -/
def configWatcherCallback (resources : List (StackResourceKind × StackResource))
    (diskContent : Option WunderNodeConfig) :
    Option WunderNodeConfig × Except String WunderNodeConfig :=
  readAndCreateConfig diskContent (watcherS3Rewrite resources)

/-- The explicit parse-and-push after node start of up.go lines 346-365. -/
def initialParseAndPush (resources : List (StackResourceKind × StackResource))
    (diskContent : Option WunderNodeConfig) :
    Option WunderNodeConfig × Except String WunderNodeConfig :=
  readAndCreateConfig diskContent (initialS3Rewrite resources)

/-- Actions of the onAfterBuild callbacks, one trace event per source
action, in source order. `bundleSync` is a Bundle call the callback waits
for inline; `forkBundle` is a Bundle call forked into the wait group whose
outcome is discarded by the callback; `goRunHookServer` and
`goRunIntrospection` are the fire-and-forget restart goroutines. -/
inductive BuildEvent where
  | logDebug (bundlerName : String)
  | getOperationPaths (ok : Bool)
  | operationsCleanup (ok : Bool)
  | ensureFactory (ok : Bool)
  | createBundler (name : String)
  | bundleSync (name : String) (ok : Bool)
  | runConfigScript
  | forkBundle (name : String) (ok : Bool)
  | waitAll
  | goRunHookServer
  | goRunIntrospection
deriving DecidableEq, Repr

/-- Environment of one onAfterBuild invocation: outcomes of its external
effects. `webhooksBundlerPresent` mirrors the webhooksBundler variable
being non-nil (the webhooks directory existed at startup). -/
structure AfterBuildEnv where
  operationsDirExists : Bool
  getPathsOk : Bool
  cleanupOk : Bool
  ensureFactoryOk : Bool
  operationsBundleOk : Bool
  hooksBundleOk : Bool
  webhooksBundlerPresent : Bool
  webhooksBundleOk : Bool
deriving DecidableEq, Repr

/-- The operations subtree of the with-hooks onAfterBuild callback
(up.go lines 163-187): runs only when the operations directory exists;
each failing step returns its error immediately. -/
def afterBuildOperationsPart (env : AfterBuildEnv) :
    List BuildEvent × Option String :=
  if env.operationsDirExists then
    if env.getPathsOk = false then
      ([BuildEvent.getOperationPaths false], some "operations.GetPaths failed")
    else if env.cleanupOk = false then
      ([BuildEvent.getOperationPaths true, BuildEvent.operationsCleanup false],
        some "operations.Cleanup failed")
    else if env.ensureFactoryOk = false then
      ([BuildEvent.getOperationPaths true, BuildEvent.operationsCleanup true,
        BuildEvent.ensureFactory false],
        some "operations.EnsureWunderGraphFactoryTS failed")
    else
      let evs := [BuildEvent.getOperationPaths true, BuildEvent.operationsCleanup true,
        BuildEvent.ensureFactory true, BuildEvent.createBundler "operations-bundler",
        BuildEvent.bundleSync "operations-bundler" env.operationsBundleOk]
      if env.operationsBundleOk then (evs, none)
      else (evs, some "operations bundle failed")
  else ([], none)

/-- The onAfterBuild callback configured when the server-hooks entry point
exists (up.go lines 160-222): log, synchronous operations subtree, blocking
config-generation script run, concurrent hooks and webhooks bundle forks
whose errors are discarded, wait for both, then fire-and-forget restart
goroutines for the hook server and the introspection runner. -/
def onAfterBuildWithHooks (env : AfterBuildEnv) :
    List BuildEvent × Option String :=
  let start := [BuildEvent.logDebug "config-bundler"]
  match afterBuildOperationsPart env with
  | (evs, some e) => (start ++ evs, some e)
  | (evs, none) =>
    (start ++ evs ++
      [BuildEvent.runConfigScript,
       BuildEvent.forkBundle "hooks-bundler" env.hooksBundleOk] ++
      (if env.webhooksBundlerPresent then
        [BuildEvent.forkBundle "webhooks-bundler" env.webhooksBundleOk]
       else []) ++
      [BuildEvent.waitAll, BuildEvent.goRunHookServer, BuildEvent.goRunIntrospection],
      none)

/-- The onAfterBuild callback configured when the server-hooks entry point
is absent (up.go lines 225-237): blocking config-generation script run,
fire-and-forget introspection restart goroutine, debug log; nothing else. -/
def onAfterBuildNoHooks : List BuildEvent × Option String :=
  ([BuildEvent.runConfigScript, BuildEvent.goRunIntrospection,
    BuildEvent.logDebug "config-bundler"], none)

/-- Actions of the RunE function of the up command, one trace event per
source action, in source order. `go...` events are goroutine launches;
`create...` events are constructions of runners, bundlers, watchers, the
stack runner and the node. -/
inductive UpEvent where
  | logInfo (message : String)
  | logError (component : String)
  | killExistingHooksProcess
  | createScriptRunner (name : String)
  | createBundler (name : String)
  | createServerRunner
  | runInitialBundle (ok : Bool)
  | initStackRunner (ok : Bool)
  | runStackRunner (ok : Bool)
  | goConfigBundlerWatch
  | createWatcher (name : String)
  | goWatcher (name : String)
  | createNode
  | goNodeStart
  | initialConfigParse (ok : Bool)
  | pushConfig
deriving DecidableEq, Repr

/-- Environment of one RunE invocation: outcomes of its external effects
and the state of the project directory. `initialConfigContent` is what the
generated config artifact parses to at the explicit final parse (`none`
when missing or unparsable). -/
structure UpEnv where
  wunderGraphDirOk : Bool
  configEntryPointExists : Bool
  serverEntryPointExists : Bool
  serverPortFromConfigOk : Bool
  webhooksDirExists : Bool
  getWebhooksOk : Bool
  initialBundleOk : Bool
  stackInitOk : Bool
  stackRunOk : Bool
  stackResources : List (StackResourceKind × StackResource)
  initialConfigContent : Option WunderNodeConfig
deriving Repr

/-- The tail of RunE after the onAfterBuild wiring (up.go lines 240-377):
config bundler construction, synchronous initial build whose failure is
logged but not returned, stack runner init and run whose failures are
logged but not returned, backgrounded config-bundler watch, config-artifact
watcher, node start, and the explicit final parse-and-push whose failure is
returned. -/
def runUpTailEvents (env : UpEnv) : List UpEvent :=
  [UpEvent.createBundler "config-bundler",
    UpEvent.runInitialBundle env.initialBundleOk] ++
  (if env.initialBundleOk then [] else [UpEvent.logError "config-bundler"]) ++
  [UpEvent.initStackRunner env.stackInitOk] ++
  (if env.stackInitOk then
    [UpEvent.runStackRunner env.stackRunOk] ++
      (if env.stackRunOk then [] else [UpEvent.logError "stack-run"])
   else [UpEvent.logError "stack-init"]) ++
  [UpEvent.goConfigBundlerWatch, UpEvent.createWatcher "config",
    UpEvent.goWatcher "config", UpEvent.createNode, UpEvent.goNodeStart] ++
  (match (initialParseAndPush env.stackResources env.initialConfigContent).2 with
   | Except.error _ => [UpEvent.initialConfigParse false]
   | Except.ok _ => [UpEvent.initialConfigParse true, UpEvent.pushConfig])

/-- Outcome of the tail of RunE: only a failing final parse-and-push is
returned as an error (up.go lines 359-361); reaching the shutdown wait
returns nil. -/
def runUpTailError (env : UpEnv) : Option String :=
  match (initialParseAndPush env.stackResources env.initialConfigContent).2 with
  | Except.error e => some e
  | Except.ok _ => none

/-- The tail of RunE as invoked after the prefix trace `evs`. -/
def runUpTail (env : UpEnv) (evs : List UpEvent) : List UpEvent × Option String :=
  (evs ++ runUpTailEvents env, runUpTailError env)

/-- Trace model of the RunE function of the up command (up.go lines
39-378). The two entry-point checks come first and return before any other
event; then logging, the conditional kill of a previously running hooks
process, the two script runner constructions, the hooks subtree (bundlers
and server runner, only when the server entry point exists, with an early
error return when webhook enumeration fails), and the common tail. -/
def runUp (env : UpEnv) : List UpEvent × Option String :=
  if env.wunderGraphDirOk = false then
    ([], some "could not find wundergraph directory")
  else if env.configEntryPointExists = false then
    ([], some "config entry point missing")
  else
    let evs := [UpEvent.logInfo "Starting WunderNode"]
    let evs := evs ++
      (if env.serverPortFromConfigOk then [UpEvent.killExistingHooksProcess] else [])
    let evs := evs ++ [UpEvent.createScriptRunner "config-runner",
      UpEvent.createScriptRunner "config-introspection-runner"]
    if env.serverEntryPointExists then
      let evs := evs ++ [UpEvent.createBundler "hooks-bundler"]
      if env.webhooksDirExists ∧ env.getWebhooksOk = false then
        (evs, some "webhooks.GetWebhooks failed")
      else
        let evs := evs ++
          (if env.webhooksDirExists then [UpEvent.createBundler "webhooks-bundler"] else [])
        runUpTail env (evs ++ [UpEvent.createServerRunner])
    else
      runUpTail env (evs ++ [UpEvent.logInfo "hooks EntryPoint not found, skipping"])

/-- Witness environment for C1: everything nominal except the initial
build, which fails. -/
def upEnvInitialBuildFails : UpEnv :=
  { wunderGraphDirOk := true, configEntryPointExists := true
    serverEntryPointExists := true, serverPortFromConfigOk := true
    webhooksDirExists := true, getWebhooksOk := true
    initialBundleOk := false, stackInitOk := true, stackRunOk := true
    stackResources := [], initialConfigContent := none }

/-- Witness environment for C4: server entry point absent, everything else
nominal. -/
def upEnvNoServerEntryPoint : UpEnv :=
  { wunderGraphDirOk := true, configEntryPointExists := true
    serverEntryPointExists := false, serverPortFromConfigOk := true
    webhooksDirExists := true, getWebhooksOk := true
    initialBundleOk := true, stackInitOk := true, stackRunOk := true
    stackResources := [], initialConfigContent := none }

/-- After-build environment with every external effect succeeding and the
operations directory and webhooks bundler present. -/
def afterBuildEnvAllOk : AfterBuildEnv :=
  { operationsDirExists := true, getPathsOk := true, cleanupOk := true
    ensureFactoryOk := true, operationsBundleOk := true
    hooksBundleOk := true, webhooksBundlerPresent := true, webhooksBundleOk := true }

/-- After-build environment where only the operations bundle fails. -/
def afterBuildEnvOperationsFail : AfterBuildEnv :=
  { operationsDirExists := true, getPathsOk := true, cleanupOk := true
    ensureFactoryOk := true, operationsBundleOk := false
    hooksBundleOk := true, webhooksBundlerPresent := true, webhooksBundleOk := true }

/-- After-build environment where only the hooks bundle fails. -/
def afterBuildEnvHooksFail : AfterBuildEnv :=
  { operationsDirExists := true, getPathsOk := true, cleanupOk := true
    ensureFactoryOk := true, operationsBundleOk := true
    hooksBundleOk := false, webhooksBundlerPresent := true, webhooksBundleOk := true }

/-- Witness resources and configuration for C5. -/
def s3WitnessResources : List (StackResourceKind × StackResource) :=
  [(StackResourceKind.S3, { hostPorts := [("s3-default", "localhost:9000")] })]

/-- Witness configuration for C5 with one S3 upload provider whose endpoint
still holds a placeholder. -/
def s3WitnessConfig : WunderNodeConfig :=
  { api := { s3UploadConfiguration :=
      [{ name := "minio"
         endpoint := { kind := ConfigurationVariableKind.PLACEHOLDER_CONFIGURATION_VARIABLE
                       staticVariableContent := "" } }] } }


/-- Boolean test for an error result. -/
def exceptIsError {α : Type} (x : Except String α) : Bool :=
  match x with
  | Except.error _ => true
  | Except.ok _ => false

/-- Schema with a WG_ROLE enum holding one role, for concrete runs. -/
def c8Schema : SchemaModel := { wgRoleEnumValues := some ["admin"] }

/-- Default parse options, for concrete runs. -/
def c8Opts : ParseOperationsOptions := { keepFromClaimVariables := none, customClaims := none }

/-- A concrete operation file whose single operation carries an rbac
directive requiring the admin role. -/
def c8File : GraphQLOperationFile :=
  { operation_name := "B", api_mount_path := "b", file_path := "b.graphql"
    content := "query"
    parsed := Except.ok [
      { operation := "query", variableDefinitions := []
        directives := [
          { name := "rbac", arguments := some [
            { name := "requireMatchAll"
              value := GqlValue.listv [GqlListElem.enumv "admin"] } ] } ]
        validationErrors := [] } ] }

/-- The operation descriptor produced for c8File. -/
def c8Op : GraphQLOperation :=
  { Name := "B", PathName := "b", OperationType := OperationType.QUERY
    AuthenticationConfig := { required := true }
    AuthorizationConfig :=
      { claims := []
        roleConfig := { requireMatchAll := ["admin"], requireMatchAny := []
                        denyMatchAll := [], denyMatchAny := [] } }
    HooksConfiguration :=
      { preResolve := false, postResolve := false
        mutatingPreResolve := false, mutatingPostResolve := false
        mockResolve := { enable := false, subscriptionPollingIntervalMillis := 0 }
        httpTransportOnRequest := false, httpTransportOnResponse := false
        customResolve := false }
    VariablesConfiguration := { injectVariables := [] }
    Internal := false }

/-- A base operation descriptor with nothing set, for concrete runs. -/
def dtBaseOp : GraphQLOperation :=
  { Name := "Op", PathName := "op", OperationType := OperationType.QUERY
    AuthenticationConfig := { required := false }
    AuthorizationConfig :=
      { claims := []
        roleConfig := { requireMatchAll := [], requireMatchAny := []
                        denyMatchAll := [], denyMatchAny := [] } }
    HooksConfiguration :=
      { preResolve := false, postResolve := false
        mutatingPreResolve := false, mutatingPostResolve := false
        mockResolve := { enable := false, subscriptionPollingIntervalMillis := 0 }
        httpTransportOnRequest := false, httpTransportOnResponse := false
        customResolve := false }
    VariablesConfiguration := { injectVariables := [] }
    Internal := false }

/-- A variable definition carrying an injectCurrentDateTime directive with
the ANSIC named format. -/
def dtVarDef : VariableDefinition :=
  { name := "a", directives := [
    { name := "injectCurrentDateTime"
      arguments := some [ { name := "format", value := GqlValue.enumv "ANSIC" } ] } ] }

/-- The injection configuration the handler pushes for dtVarDef: the fixed
date format, not the ANSIC layout the format argument named. -/
def dtPushed : VariableInjectionConfiguration :=
  { environmentVariableName := "", dateFormat := "2006-01-02T15:04:05Z07:00"
    variablePathComponents := ["a"], variableKind := InjectVariableKind.DATE_TIME }

/-- The operation produced by handling dtVarDef on dtBaseOp. -/
def dtResultOp : GraphQLOperation :=
  { dtBaseOp with VariablesConfiguration := { injectVariables := [dtPushed] } }

/-- An injectCurrentDateTime directive carrying both format: and
customFormat: arguments. -/
def dtBothDirective : GqlDirective :=
  { name := "injectCurrentDateTime"
    arguments := some [ { name := "format", value := GqlValue.enumv "ISO8601" },
                        { name := "customFormat", value := GqlValue.strv "x" } ] }

/-- A format: argument holding a string instead of an enum. -/
def dtBadFormatArg : GqlArgument := { name := "format", value := GqlValue.strv "2006" }

/-- An injectCurrentDateTime directive whose format: argument is
ill-typed. -/
def dtBadFormatDirective : GqlDirective :=
  { name := "injectCurrentDateTime", arguments := some [dtBadFormatArg] }

/-- A customFormat: argument holding an int instead of a string. -/
def dtBadCustomArg : GqlArgument := { name := "customFormat", value := GqlValue.intv 3 }

/-- An injectCurrentDateTime directive whose customFormat: argument is
ill-typed. -/
def dtBadCustomDirective : GqlDirective :=
  { name := "injectCurrentDateTime", arguments := some [dtBadCustomArg] }

/-- A concrete operation file whose parse throws. -/
def c7BadFile : GraphQLOperationFile :=
  { operation_name := "A", api_mount_path := "a", file_path := "a.graphql"
    content := "query broken", parsed := Except.error "syntax error" }

/-- A concrete operation node failing GraphQL validation. -/
def c7NodeInvalid : OperationNode :=
  { operation := "query", variableDefinitions := [], directives := []
    validationErrors := ["field does not exist"] }

/-- A concrete file holding only the validation-failing node. -/
def c7FileMixed : GraphQLOperationFile :=
  { operation_name := "M", api_mount_path := "m", file_path := "m.graphql"
    content := "query m", parsed := Except.ok [c7NodeInvalid] }

/-- A concrete operation node whose fromClaim directive throws (no
arguments). -/
def c7ThrowNode : OperationNode :=
  { operation := "query"
    variableDefinitions := [ { name := "v", directives := [
      { name := "fromClaim", arguments := none } ] } ]
    directives := [], validationErrors := [] }

/-- A concrete file holding only the throwing node. -/
def c7ThrowFile : GraphQLOperationFile :=
  { operation_name := "T", api_mount_path := "t", file_path := "t.graphql"
    content := "query t", parsed := Except.ok [c7ThrowNode] }

end WunderGraph

namespace WunderGraph

/-- C10: for every query built through the factory's query constructor, the
returned operation's liveQuery.enable is true — even when the caller passes
live with enable set to false — and its pollingIntervalSeconds is 5 whenever
the caller's value is 0 or absent. -/
theorem createQuery_liveQuery_forced
    (input : CreateQueryInput) :
    (createQuery input).liveQuery.enable = true ∧
    (input.live = none → (createQuery input).liveQuery.pollingIntervalSeconds = 5) ∧
    (∀ lq, input.live = some lq → lq.pollingIntervalSeconds = 0 →
      (createQuery input).liveQuery.pollingIntervalSeconds = 5) := by
  refine ⟨?_, ?_, ?_⟩
  · cases h : input.live with
    | none => simp [createQuery, jsOrBool, h]
    | some lq => simp [createQuery, jsOrBool, h]
  · intro h
    simp [createQuery, jsOrNum, h]
  · intro lq h hz
    simp [createQuery, jsOrNum, h, hz]

/-- Witness for C10: concrete caller passing live with enable false and
polling interval 0 still gets enable true and interval 5. -/
theorem createQuery_liveQuery_forced_witness :
    (createQuery
      { live := some { enable := false, pollingIntervalSeconds := 0 }
        requireAuthentication := none, internal := none, rbac := none }).liveQuery.enable = true ∧
    (createQuery
      { live := some { enable := false, pollingIntervalSeconds := 0 }
        requireAuthentication := none, internal := none, rbac := none
        }).liveQuery.pollingIntervalSeconds = 5 := by
  refine ⟨(createQuery_liveQuery_forced _).1, ?_⟩
  exact (createQuery_liveQuery_forced
    { live := some { enable := false, pollingIntervalSeconds := 0 }
      requireAuthentication := none, internal := none, rbac := none }).2.2
    { enable := false, pollingIntervalSeconds := 0 } rfl rfl

/-- Helper: whenever the two entry-point checks pass and webhook enumeration
does not fail, RunE reaches its common tail, whatever else the environment
says. -/
theorem runUp_reaches_tail (env : UpEnv)
    (hdir : env.wunderGraphDirOk = true)
    (hentry : env.configEntryPointExists = true)
    (hwh : env.serverEntryPointExists = true → env.webhooksDirExists = true →
      env.getWebhooksOk = true) :
    ∃ pre : List UpEvent,
      runUp env = (pre ++ runUpTailEvents env, runUpTailError env) := by
  unfold runUp
  cases hp : env.serverPortFromConfigOk with
  | false =>
    cases hs : env.serverEntryPointExists with
    | false =>
      simp only [hdir, hentry, hs, hp, runUpTail]
      exact ⟨[UpEvent.logInfo "Starting WunderNode",
        UpEvent.createScriptRunner "config-runner",
        UpEvent.createScriptRunner "config-introspection-runner",
        UpEvent.logInfo "hooks EntryPoint not found, skipping"], by simp⟩
    | true =>
      cases hw : env.webhooksDirExists with
      | false =>
        simp only [hdir, hentry, hs, hw, hp, runUpTail]
        exact ⟨[UpEvent.logInfo "Starting WunderNode",
          UpEvent.createScriptRunner "config-runner",
          UpEvent.createScriptRunner "config-introspection-runner",
          UpEvent.createBundler "hooks-bundler", UpEvent.createServerRunner], by simp⟩
      | true =>
        have hg := hwh hs hw
        simp only [hdir, hentry, hs, hw, hg, hp, runUpTail]
        exact ⟨[UpEvent.logInfo "Starting WunderNode",
          UpEvent.createScriptRunner "config-runner",
          UpEvent.createScriptRunner "config-introspection-runner",
          UpEvent.createBundler "hooks-bundler",
          UpEvent.createBundler "webhooks-bundler", UpEvent.createServerRunner], by simp⟩
  | true =>
    cases hs : env.serverEntryPointExists with
    | false =>
      simp only [hdir, hentry, hs, hp, runUpTail]
      exact ⟨[UpEvent.logInfo "Starting WunderNode", UpEvent.killExistingHooksProcess,
        UpEvent.createScriptRunner "config-runner",
        UpEvent.createScriptRunner "config-introspection-runner",
        UpEvent.logInfo "hooks EntryPoint not found, skipping"], by simp⟩
    | true =>
      cases hw : env.webhooksDirExists with
      | false =>
        simp only [hdir, hentry, hs, hw, hp, runUpTail]
        exact ⟨[UpEvent.logInfo "Starting WunderNode", UpEvent.killExistingHooksProcess,
          UpEvent.createScriptRunner "config-runner",
          UpEvent.createScriptRunner "config-introspection-runner",
          UpEvent.createBundler "hooks-bundler", UpEvent.createServerRunner], by simp⟩
      | true =>
        have hg := hwh hs hw
        simp only [hdir, hentry, hs, hw, hg, hp, runUpTail]
        exact ⟨[UpEvent.logInfo "Starting WunderNode", UpEvent.killExistingHooksProcess,
          UpEvent.createScriptRunner "config-runner",
          UpEvent.createScriptRunner "config-introspection-runner",
          UpEvent.createBundler "hooks-bundler",
          UpEvent.createBundler "webhooks-bundler", UpEvent.createServerRunner], by simp⟩

/-- C6: if the mandatory configuration entry point is absent from the
resolved project directory, RunE returns an error with an empty action
trace — before any bundler, watcher, stack resource or external process is
created or spawned. -/
theorem up_missing_config_entry_point_fails_fast (env : UpEnv)
    (hdir : env.wunderGraphDirOk = true)
    (hentry : env.configEntryPointExists = false) :
    (runUp env).1 = [] ∧ (runUp env).2.isSome = true := by
  simp [runUp, hdir, hentry]

/-- Witness for C6 at a concrete environment. -/
theorem up_missing_config_entry_point_fails_fast_witness :
    ((runUp { wunderGraphDirOk := true, configEntryPointExists := false
              serverEntryPointExists := true, serverPortFromConfigOk := true
              webhooksDirExists := true, getWebhooksOk := true
              initialBundleOk := true, stackInitOk := true, stackRunOk := true
              stackResources := [], initialConfigContent := none }).1 = [] ∧
     (runUp { wunderGraphDirOk := true, configEntryPointExists := false
              serverEntryPointExists := true, serverPortFromConfigOk := true
              webhooksDirExists := true, getWebhooksOk := true
              initialBundleOk := true, stackInitOk := true, stackRunOk := true
              stackResources := [], initialConfigContent := none }).2.isSome = true) :=
  up_missing_config_entry_point_fails_fast _ rfl rfl

/-- C1: a failing synchronous initial build is logged but does not abort
startup — RunE still initializes the stack runner (and runs it when its
init succeeds), starts the config-bundler watch loop, constructs and starts
the config-artifact watcher, and constructs and starts the gateway node. -/
theorem up_initial_build_failure_does_not_abort_startup (env : UpEnv)
    (hdir : env.wunderGraphDirOk = true)
    (hentry : env.configEntryPointExists = true)
    (hwh : env.serverEntryPointExists = true → env.webhooksDirExists = true →
      env.getWebhooksOk = true)
    (hfail : env.initialBundleOk = false) :
    UpEvent.runInitialBundle false ∈ (runUp env).1 ∧
    UpEvent.logError "config-bundler" ∈ (runUp env).1 ∧
    UpEvent.initStackRunner env.stackInitOk ∈ (runUp env).1 ∧
    (env.stackInitOk = true → UpEvent.runStackRunner env.stackRunOk ∈ (runUp env).1) ∧
    UpEvent.goConfigBundlerWatch ∈ (runUp env).1 ∧
    UpEvent.createWatcher "config" ∈ (runUp env).1 ∧
    UpEvent.goWatcher "config" ∈ (runUp env).1 ∧
    UpEvent.createNode ∈ (runUp env).1 ∧
    UpEvent.goNodeStart ∈ (runUp env).1 := by
  obtain ⟨pre, hpre⟩ := runUp_reaches_tail env hdir hentry hwh
  have hmem : ∀ a : UpEvent, a ∈ runUpTailEvents env → a ∈ (runUp env).1 := by
    intro a h
    rw [hpre]
    exact List.mem_append_right pre h
  refine ⟨hmem _ ?_, hmem _ ?_, hmem _ ?_, fun hsi => hmem _ ?_,
    hmem _ ?_, hmem _ ?_, hmem _ ?_, hmem _ ?_, hmem _ ?_⟩
  all_goals
    unfold runUpTailEvents
    rcases h2 : (initialParseAndPush env.stackResources env.initialConfigContent).2 with e | c <;>
      simp [hfail, *]


/-- Helper: the common tail of RunE creates no bundler other than the
config bundler. -/
theorem runUpTailEvents_createBundler (env : UpEnv) (name : String) :
    UpEvent.createBundler name ∈ runUpTailEvents env → name = "config-bundler" := by
  unfold runUpTailEvents
  rcases h2 : (initialParseAndPush env.stackResources env.initialConfigContent).2 with e | c <;>
    cases hib : env.initialBundleOk <;> cases hsi : env.stackInitOk <;>
      cases hsr : env.stackRunOk <;> simp [*]

/-- Helper: the common tail of RunE never constructs the hook-server
runner. -/
theorem runUpTailEvents_no_server_runner (env : UpEnv) :
    UpEvent.createServerRunner ∉ runUpTailEvents env := by
  unfold runUpTailEvents
  rcases h2 : (initialParseAndPush env.stackResources env.initialConfigContent).2 with e | c <;>
    cases hib : env.initialBundleOk <;> cases hsi : env.stackInitOk <;>
      cases hsr : env.stackRunOk <;> simp [*]

/-- C4: when the optional server-hooks entry point is absent, RunE
constructs neither the hooks bundler, the webhooks bundler, nor the
hook-server runner; the configured after-build callback runs exactly the
config-generation script, the introspection-runner restart goroutine and a
debug log, and in particular it bundles nothing and never starts a hook
server. -/
theorem up_no_server_entry_point_skips_hooks_subtree (env : UpEnv)
    (hdir : env.wunderGraphDirOk = true)
    (hentry : env.configEntryPointExists = true)
    (hserver : env.serverEntryPointExists = false) :
    UpEvent.createBundler "hooks-bundler" ∉ (runUp env).1 ∧
    UpEvent.createBundler "webhooks-bundler" ∉ (runUp env).1 ∧
    UpEvent.createServerRunner ∉ (runUp env).1 ∧
    onAfterBuildNoHooks =
      ([BuildEvent.runConfigScript, BuildEvent.goRunIntrospection,
        BuildEvent.logDebug "config-bundler"], none) ∧
    (∀ name ok, BuildEvent.createBundler name ∉ onAfterBuildNoHooks.1 ∧
      BuildEvent.bundleSync name ok ∉ onAfterBuildNoHooks.1 ∧
      BuildEvent.forkBundle name ok ∉ onAfterBuildNoHooks.1 ∧
      BuildEvent.goRunHookServer ∉ onAfterBuildNoHooks.1) := by
  refine ⟨?_, ?_, ?_, rfl, ?_⟩
  · unfold runUp
    cases hp : env.serverPortFromConfigOk <;>
      simp [hdir, hentry, hserver, hp, runUpTail] <;>
      intro hmem <;>
      exact absurd (runUpTailEvents_createBundler env _ hmem) (by decide)
  · unfold runUp
    cases hp : env.serverPortFromConfigOk <;>
      simp [hdir, hentry, hserver, hp, runUpTail] <;>
      intro hmem <;>
      exact absurd (runUpTailEvents_createBundler env _ hmem) (by decide)
  · unfold runUp
    cases hp : env.serverPortFromConfigOk <;>
      simp [hdir, hentry, hserver, hp, runUpTail] <;>
      exact runUpTailEvents_no_server_runner env
  · intro name ok
    refine ⟨?_, ?_, ?_, ?_⟩ <;> simp [onAfterBuildNoHooks]


/-- Witness for C4 at a concrete environment. -/
theorem up_no_server_entry_point_skips_hooks_subtree_witness :
    UpEvent.createBundler "hooks-bundler" ∉ (runUp upEnvNoServerEntryPoint).1 ∧
    UpEvent.createServerRunner ∉ (runUp upEnvNoServerEntryPoint).1 :=
  ⟨(up_no_server_entry_point_skips_hooks_subtree upEnvNoServerEntryPoint rfl rfl rfl).1,
   (up_no_server_entry_point_skips_hooks_subtree upEnvNoServerEntryPoint rfl rfl rfl).2.2.1⟩




/-- Counterexample to C2 as stated: in the all-success environment the
callback trace shows the operations bundle running synchronously (a
bundleSync event) before the config-generation script and before any fork,
and the builds forked concurrently into the wait group are exactly hooks
and webhooks — the three dependent bundles are not rebuilt concurrently. -/
theorem afterBuild_operations_not_concurrent_counterexample :
    (onAfterBuildWithHooks afterBuildEnvAllOk).1 =
      [BuildEvent.logDebug "config-bundler",
       BuildEvent.getOperationPaths true, BuildEvent.operationsCleanup true,
       BuildEvent.ensureFactory true, BuildEvent.createBundler "operations-bundler",
       BuildEvent.bundleSync "operations-bundler" true,
       BuildEvent.runConfigScript,
       BuildEvent.forkBundle "hooks-bundler" true,
       BuildEvent.forkBundle "webhooks-bundler" true,
       BuildEvent.waitAll, BuildEvent.goRunHookServer, BuildEvent.goRunIntrospection] ∧
    ((onAfterBuildWithHooks afterBuildEnvAllOk).1.filter
      (fun ev => match ev with
        | BuildEvent.forkBundle _ _ => true
        | _ => false)) =
      [BuildEvent.forkBundle "hooks-bundler" true,
       BuildEvent.forkBundle "webhooks-bundler" true] := by
  exact ⟨rfl, rfl⟩

/-- C2 (amended): when the server-hooks entry point exists, the after-build
callback first bundles operations synchronously (when the operations
directory exists), then runs the config-generation script, then rebuilds
the hooks and webhooks bundles concurrently and waits for both, and only
then starts the hook-server restart and the introspection-runner restart. -/
theorem afterBuild_sequential_operations_then_concurrent_forks (env : AfterBuildEnv)
    (hops : env.operationsDirExists = true) (hgp : env.getPathsOk = true)
    (hcl : env.cleanupOk = true) (hef : env.ensureFactoryOk = true)
    (hob : env.operationsBundleOk = true) (hwp : env.webhooksBundlerPresent = true) :
    onAfterBuildWithHooks env =
      ([BuildEvent.logDebug "config-bundler",
        BuildEvent.getOperationPaths true, BuildEvent.operationsCleanup true,
        BuildEvent.ensureFactory true, BuildEvent.createBundler "operations-bundler",
        BuildEvent.bundleSync "operations-bundler" true,
        BuildEvent.runConfigScript,
        BuildEvent.forkBundle "hooks-bundler" env.hooksBundleOk,
        BuildEvent.forkBundle "webhooks-bundler" env.webhooksBundleOk,
        BuildEvent.waitAll, BuildEvent.goRunHookServer, BuildEvent.goRunIntrospection],
       none) := by
  unfold onAfterBuildWithHooks afterBuildOperationsPart
  simp [hops, hgp, hcl, hef, hob, hwp]

/-- Witness for the amended C2 at a concrete environment. -/
theorem afterBuild_sequential_operations_then_concurrent_forks_witness :
    onAfterBuildWithHooks afterBuildEnvAllOk =
      ([BuildEvent.logDebug "config-bundler",
        BuildEvent.getOperationPaths true, BuildEvent.operationsCleanup true,
        BuildEvent.ensureFactory true, BuildEvent.createBundler "operations-bundler",
        BuildEvent.bundleSync "operations-bundler" true,
        BuildEvent.runConfigScript,
        BuildEvent.forkBundle "hooks-bundler" afterBuildEnvAllOk.hooksBundleOk,
        BuildEvent.forkBundle "webhooks-bundler" afterBuildEnvAllOk.webhooksBundleOk,
        BuildEvent.waitAll, BuildEvent.goRunHookServer, BuildEvent.goRunIntrospection],
       none) :=
  afterBuild_sequential_operations_then_concurrent_forks afterBuildEnvAllOk
    rfl rfl rfl rfl rfl rfl

/-- Counterexample to C3 as stated: a failing operations sub-build aborts
the callback before the hooks and webhooks sub-builds run (no fork events
at all), and a failing hooks sub-build leaves no trace beyond the recorded
fork outcome — no error log event and a nil callback result, so the error
is not logged by the orchestrator. -/
theorem afterBuild_sibling_error_isolation_counterexample :
    onAfterBuildWithHooks afterBuildEnvOperationsFail =
      ([BuildEvent.logDebug "config-bundler",
        BuildEvent.getOperationPaths true, BuildEvent.operationsCleanup true,
        BuildEvent.ensureFactory true, BuildEvent.createBundler "operations-bundler",
        BuildEvent.bundleSync "operations-bundler" false],
       some "operations bundle failed") ∧
    onAfterBuildWithHooks afterBuildEnvHooksFail =
      ([BuildEvent.logDebug "config-bundler",
        BuildEvent.getOperationPaths true, BuildEvent.operationsCleanup true,
        BuildEvent.ensureFactory true, BuildEvent.createBundler "operations-bundler",
        BuildEvent.bundleSync "operations-bundler" true,
        BuildEvent.runConfigScript,
        BuildEvent.forkBundle "hooks-bundler" false,
        BuildEvent.forkBundle "webhooks-bundler" true,
        BuildEvent.waitAll, BuildEvent.goRunHookServer, BuildEvent.goRunIntrospection],
       none) := by
  exact ⟨rfl, rfl⟩

/-- C3 (amended): an error in the synchronous operations sub-build aborts
the after-build callback before the hooks and webhooks sub-builds run,
while errors in the concurrently forked hooks and webhooks sub-builds stop
neither the sibling build nor the subsequent restarts — they are discarded
at the call site (nil callback result), not logged by the orchestrator. -/
theorem afterBuild_error_propagation (env : AfterBuildEnv) :
    (env.operationsDirExists = true → env.getPathsOk = true → env.cleanupOk = true →
      env.ensureFactoryOk = true → env.operationsBundleOk = false →
      (onAfterBuildWithHooks env).2 = some "operations bundle failed" ∧
      (∀ b, BuildEvent.forkBundle "hooks-bundler" b ∉ (onAfterBuildWithHooks env).1) ∧
      (∀ b, BuildEvent.forkBundle "webhooks-bundler" b ∉ (onAfterBuildWithHooks env).1)) ∧
    ((afterBuildOperationsPart env).2 = none →
      BuildEvent.forkBundle "hooks-bundler" env.hooksBundleOk ∈ (onAfterBuildWithHooks env).1 ∧
      (env.webhooksBundlerPresent = true →
        BuildEvent.forkBundle "webhooks-bundler" env.webhooksBundleOk
          ∈ (onAfterBuildWithHooks env).1) ∧
      BuildEvent.waitAll ∈ (onAfterBuildWithHooks env).1 ∧
      BuildEvent.goRunHookServer ∈ (onAfterBuildWithHooks env).1 ∧
      (onAfterBuildWithHooks env).2 = none) := by
  constructor
  · intro hops hgp hcl hef hob
    unfold onAfterBuildWithHooks afterBuildOperationsPart
    simp [hops, hgp, hcl, hef, hob]
  · intro hnone
    rcases hop : afterBuildOperationsPart env with ⟨evs, err⟩
    have herr : err = none := by rw [hop] at hnone; exact hnone
    subst herr
    unfold onAfterBuildWithHooks
    rw [hop]
    cases hwp : env.webhooksBundlerPresent <;> simp [hwp]

/-- Witness for the amended C3 at concrete environments: the first part at
the operations-failure environment, the second at the hooks-failure
environment. -/
theorem afterBuild_error_propagation_witness :
    ((onAfterBuildWithHooks afterBuildEnvOperationsFail).2 = some "operations bundle failed" ∧
      (∀ b, BuildEvent.forkBundle "hooks-bundler" b
        ∉ (onAfterBuildWithHooks afterBuildEnvOperationsFail).1) ∧
      (∀ b, BuildEvent.forkBundle "webhooks-bundler" b
        ∉ (onAfterBuildWithHooks afterBuildEnvOperationsFail).1)) ∧
    (BuildEvent.forkBundle "hooks-bundler" afterBuildEnvHooksFail.hooksBundleOk
        ∈ (onAfterBuildWithHooks afterBuildEnvHooksFail).1 ∧
      (afterBuildEnvHooksFail.webhooksBundlerPresent = true →
        BuildEvent.forkBundle "webhooks-bundler" afterBuildEnvHooksFail.webhooksBundleOk
          ∈ (onAfterBuildWithHooks afterBuildEnvHooksFail).1) ∧
      BuildEvent.waitAll ∈ (onAfterBuildWithHooks afterBuildEnvHooksFail).1 ∧
      BuildEvent.goRunHookServer ∈ (onAfterBuildWithHooks afterBuildEnvHooksFail).1 ∧
      (onAfterBuildWithHooks afterBuildEnvHooksFail).2 = none) :=
  ⟨(afterBuild_error_propagation afterBuildEnvOperationsFail).1 rfl rfl rfl rfl rfl,
   (afterBuild_error_propagation afterBuildEnvHooksFail).2 rfl⟩

/-- Helper: the rewrite leaves the configuration untouched when no stack
resource has kind S3. -/
theorem watcherS3Rewrite_no_s3 (resources : List (StackResourceKind × StackResource))
    (h : ∀ p ∈ resources, p.1 ≠ StackResourceKind.S3) (cfg : WunderNodeConfig) :
    watcherS3Rewrite resources cfg = cfg := by
  induction resources generalizing cfg with
  | nil => rfl
  | cons head tail ih =>
    have hh : head.1 ≠ StackResourceKind.S3 := h head (List.mem_cons_self head tail)
    have hstep : watcherS3Rewrite (head :: tail) cfg = watcherS3Rewrite tail cfg := by
      simp [watcherS3Rewrite, hh]
    rw [hstep]
    exact ih (fun p hp => h p (List.mem_cons_of_mem head hp)) cfg

/-- Helper: when the resources contain an S3 resource and resource kinds
are pairwise distinct (they key a Go map), every S3 upload configuration of
the rewritten configuration carries the static host:port endpoint of that
resource. -/
theorem watcherS3Rewrite_sets_endpoint
    (resources : List (StackResourceKind × StackResource)) (r : StackResource)
    (hmem : (StackResourceKind.S3, r) ∈ resources)
    (hnodup : (resources.map Prod.fst).Nodup) (cfg : WunderNodeConfig) :
    ∀ s3Cfg ∈ (watcherS3Rewrite resources cfg).api.s3UploadConfiguration,
      s3Cfg.endpoint =
        { kind := ConfigurationVariableKind.STATIC_CONFIGURATION_VARIABLE
          staticVariableContent := r.getHostPort getDefaultS3PortID } := by
  induction resources generalizing cfg with
  | nil => cases hmem
  | cons head tail ih =>
    obtain ⟨k, res⟩ := head
    rw [List.map_cons, List.nodup_cons] at hnodup
    by_cases hk : k = StackResourceKind.S3
    · subst hk
      have hr : r = res := by
        rcases List.mem_cons.mp hmem with heq | htail
        · exact congrArg Prod.snd heq
        · exact absurd (List.mem_map.mpr ⟨_, htail, rfl⟩) hnodup.1
      subst hr
      have hno : ∀ p ∈ tail, p.1 ≠ StackResourceKind.S3 := by
        intro p hp hps3
        exact hnodup.1 (List.mem_map.mpr ⟨p, hp, hps3⟩)
      have hstep : watcherS3Rewrite ((StackResourceKind.S3, r) :: tail) cfg =
          watcherS3Rewrite tail
            { cfg with api := { cfg.api with s3UploadConfiguration :=
                cfg.api.s3UploadConfiguration.map (fun s3Cfg =>
                  { s3Cfg with endpoint :=
                      { staticVariableContent := r.getHostPort getDefaultS3PortID
                        kind := ConfigurationVariableKind.STATIC_CONFIGURATION_VARIABLE } }) } } := by
        simp [watcherS3Rewrite]
      rw [hstep, watcherS3Rewrite_no_s3 tail hno]
      intro s3Cfg hs
      simp only [List.mem_map] at hs
      obtain ⟨orig, _, horig⟩ := hs
      rw [← horig]
    · have hstep : watcherS3Rewrite ((k, res) :: tail) cfg = watcherS3Rewrite tail cfg := by
        simp [watcherS3Rewrite, hk]
      rw [hstep]
      have htail : (StackResourceKind.S3, r) ∈ tail := by
        rcases List.mem_cons.mp hmem with heq | htail
        · exact absurd (congrArg Prod.fst heq.symm) hk
        · exact htail
      exact ih htail hnodup.2 cfg

/-- C5: both the config-artifact watcher callback and the explicit initial
parse apply the identical in-memory rewrite on every parse — the two
closures are the same function — the rewrite sets every S3 upload endpoint
to the discovered S3 resource host:port with kind
STATIC_CONFIGURATION_VARIABLE, and neither parse path modifies the on-disk
artifact content. -/
theorem config_rewrite_on_every_parse
    (resources : List (StackResourceKind × StackResource))
    (disk : Option WunderNodeConfig) (cfg : WunderNodeConfig) (r : StackResource)
    (hmem : (StackResourceKind.S3, r) ∈ resources)
    (hnodup : (resources.map Prod.fst).Nodup) :
    (configWatcherCallback resources disk).1 = disk ∧
    (initialParseAndPush resources disk).1 = disk ∧
    configWatcherCallback resources disk = initialParseAndPush resources disk ∧
    (disk = some cfg →
      (configWatcherCallback resources disk).2 =
        Except.ok (watcherS3Rewrite resources cfg)) ∧
    (∀ s3Cfg ∈ (watcherS3Rewrite resources cfg).api.s3UploadConfiguration,
      s3Cfg.endpoint =
        { kind := ConfigurationVariableKind.STATIC_CONFIGURATION_VARIABLE
          staticVariableContent := r.getHostPort getDefaultS3PortID }) := by
  refine ⟨rfl, rfl, rfl, ?_, watcherS3Rewrite_sets_endpoint resources r hmem hnodup cfg⟩
  intro hd
  subst hd
  rfl



/-- Witness for C5 at concrete resources, disk content and configuration. -/
theorem config_rewrite_on_every_parse_witness :
    (configWatcherCallback s3WitnessResources (some s3WitnessConfig)).1 = some s3WitnessConfig ∧
    configWatcherCallback s3WitnessResources (some s3WitnessConfig) =
      initialParseAndPush s3WitnessResources (some s3WitnessConfig) ∧
    (∀ s3Cfg ∈ (watcherS3Rewrite s3WitnessResources s3WitnessConfig).api.s3UploadConfiguration,
      s3Cfg.endpoint =
        { kind := ConfigurationVariableKind.STATIC_CONFIGURATION_VARIABLE
          staticVariableContent :=
            StackResource.getHostPort { hostPorts := [("s3-default", "localhost:9000")] }
              getDefaultS3PortID }) := by
  have h := config_rewrite_on_every_parse s3WitnessResources (some s3WitnessConfig)
    s3WitnessConfig { hostPorts := [("s3-default", "localhost:9000")] }
    (by simp [s3WitnessResources]) (by simp [s3WitnessResources])
  exact ⟨h.1, h.2.2.1, h.2.2.2.2⟩

/-- Witness for C1 at a concrete environment. -/
theorem up_initial_build_failure_does_not_abort_startup_witness :
    UpEvent.runInitialBundle false ∈ (runUp upEnvInitialBuildFails).1 ∧
    UpEvent.logError "config-bundler" ∈ (runUp upEnvInitialBuildFails).1 ∧
    UpEvent.initStackRunner upEnvInitialBuildFails.stackInitOk ∈ (runUp upEnvInitialBuildFails).1 ∧
    (upEnvInitialBuildFails.stackInitOk = true →
      UpEvent.runStackRunner upEnvInitialBuildFails.stackRunOk ∈ (runUp upEnvInitialBuildFails).1) ∧
    UpEvent.goConfigBundlerWatch ∈ (runUp upEnvInitialBuildFails).1 ∧
    UpEvent.createWatcher "config" ∈ (runUp upEnvInitialBuildFails).1 ∧
    UpEvent.goWatcher "config" ∈ (runUp upEnvInitialBuildFails).1 ∧
    UpEvent.createNode ∈ (runUp upEnvInitialBuildFails).1 ∧
    UpEvent.goNodeStart ∈ (runUp upEnvInitialBuildFails).1 :=
  up_initial_build_failure_does_not_abort_startup upEnvInitialBuildFails
    rfl rfl (fun _ _ => rfl) rfl


/-- Helper: a successful Except bind factors into a successful first stage
and a successful continuation. -/
theorem except_bind_ok {α β : Type} {x : Except String α} {f : α → Except String β} {r : β}
    (h : (x >>= f) = Except.ok r) : ∃ a, x = Except.ok a ∧ f a = Except.ok r := by
  cases hx : x with
  | error e => rw [hx] at h; simp [Bind.bind, Except.bind] at h
  | ok a =>
    rw [hx] at h
    simp [Bind.bind, Except.bind] at h
    exact ⟨a, rfl, h⟩

/-- Helper: an accepted injectCurrentDateTime directive appends exactly one
injection configuration, and it carries the fixed date format and the
DATE_TIME kind. -/
theorem handleDateTimeDirective_pushes_fixed (varDef : VariableDefinition)
    (d : GqlDirective) (op r : GraphQLOperation) :
    handleDateTimeDirective varDef d op = Except.ok r →
    ∃ pcs, r = { op with VariablesConfiguration :=
      { injectVariables := op.VariablesConfiguration.injectVariables ++
        [{ environmentVariableName := ""
           dateFormat := "2006-01-02T15:04:05Z07:00"
           variablePathComponents := pcs
           variableKind := InjectVariableKind.DATE_TIME }] } } := by
  intro h
  unfold handleDateTimeDirective at h
  dsimp only at h
  split at h
  · cases h
  · split at h
    · split at h
      · obtain ⟨df, hdf, h2⟩ := except_bind_ok h
        obtain ⟨pcs, hpcs, h3⟩ := except_bind_ok h2
        simp [pure, Except.pure] at h3
        exact ⟨pcs, h3.symm⟩
      · cases h
    · split at h
      · split at h
        · obtain ⟨df, hdf, h2⟩ := except_bind_ok h
          obtain ⟨pcs, hpcs, h3⟩ := except_bind_ok h2
          simp [pure, Except.pure] at h3
          exact ⟨pcs, h3.symm⟩
        · cases h
      · obtain ⟨df, hdf, h2⟩ := except_bind_ok h
        obtain ⟨pcs, hpcs, h3⟩ := except_bind_ok h2
        simp [pure, Except.pure] at h3
        exact ⟨pcs, h3.symm⟩

/-- Helper: over any directive list, every injection configuration present
after the fold either was there before or carries the fixed date format. -/
theorem handleDateTimeDirectives_fixed_aux (varDef : VariableDefinition)
    (ds : List GqlDirective) (op r : GraphQLOperation)
    (h : ds.foldlM (fun op d => handleDateTimeDirective varDef d op) op = Except.ok r) :
    ∀ c ∈ r.VariablesConfiguration.injectVariables,
      c ∈ op.VariablesConfiguration.injectVariables ∨
        (c.dateFormat = "2006-01-02T15:04:05Z07:00" ∧
         c.variableKind = InjectVariableKind.DATE_TIME) := by
  induction ds generalizing op with
  | nil =>
    intro c hc
    simp [List.foldlM, pure, Except.pure] at h
    subst h
    exact Or.inl hc
  | cons d ds ih =>
    intro c hc
    rw [List.foldlM_cons] at h
    obtain ⟨mid, hmid, hrest⟩ := except_bind_ok h
    rcases ih mid hrest c hc with hmem | hfix
    · obtain ⟨pcs, hpcs⟩ := handleDateTimeDirective_pushes_fixed varDef d op mid hmid
      subst hpcs
      simp at hmem
      rcases hmem with h1 | h2
      · exact Or.inl h1
      · subst h2; exact Or.inr ⟨rfl, rfl⟩
    · exact Or.inr hfix

/-- Helper: giving both format: and customFormat: throws. -/
theorem handleDateTimeDirective_both_args_error (varDef : VariableDefinition)
    (d : GqlDirective) (op : GraphQLOperation)
    (hf : ((d.arguments.getD []).find? (fun arg => arg.name = "format")).isSome = true)
    (hc : ((d.arguments.getD []).find? (fun arg => arg.name = "customFormat")).isSome = true) :
    exceptIsError (handleDateTimeDirective varDef d op) = true := by
  unfold handleDateTimeDirective
  dsimp only
  rw [if_pos ⟨hf, hc⟩]
  rfl

/-- Helper: a non-enum format: argument throws. -/
theorem handleDateTimeDirective_bad_format_error (varDef : VariableDefinition)
    (d : GqlDirective) (op : GraphQLOperation) (a : GqlArgument)
    (hfind : (d.arguments.getD []).find? (fun arg => arg.name = "format") = some a)
    (hv : ∀ s, a.value ≠ GqlValue.enumv s) :
    exceptIsError (handleDateTimeDirective varDef d op) = true := by
  unfold handleDateTimeDirective
  dsimp only
  split
  · rfl
  · cases hva : a.value with
    | enumv s => exact absurd hva (hv s)
    | strv s => simp [hfind, hva, exceptIsError, Bind.bind, Except.bind]
    | intv n => simp [hfind, hva, exceptIsError, Bind.bind, Except.bind]
    | boolv b => simp [hfind, hva, exceptIsError, Bind.bind, Except.bind]
    | listv l => simp [hfind, hva, exceptIsError, Bind.bind, Except.bind]
    | other k => simp [hfind, hva, exceptIsError, Bind.bind, Except.bind]

/-- Helper: a non-string customFormat: argument (with no format:) throws. -/
theorem handleDateTimeDirective_bad_customFormat_error (varDef : VariableDefinition)
    (d : GqlDirective) (op : GraphQLOperation) (a : GqlArgument)
    (hnone : (d.arguments.getD []).find? (fun arg => arg.name = "format") = none)
    (hfind : (d.arguments.getD []).find? (fun arg => arg.name = "customFormat") = some a)
    (hv : ∀ s, a.value ≠ GqlValue.strv s) :
    exceptIsError (handleDateTimeDirective varDef d op) = true := by
  unfold handleDateTimeDirective
  dsimp only
  split
  · rfl
  · cases hva : a.value with
    | strv s => exact absurd hva (hv s)
    | enumv s => simp [hnone, hfind, hva, exceptIsError, Bind.bind, Except.bind]
    | intv n => simp [hnone, hfind, hva, exceptIsError, Bind.bind, Except.bind]
    | boolv b => simp [hnone, hfind, hva, exceptIsError, Bind.bind, Except.bind]
    | listv l => simp [hnone, hfind, hva, exceptIsError, Bind.bind, Except.bind]
    | other k => simp [hnone, hfind, hva, exceptIsError, Bind.bind, Except.bind]

/-- C9: every injectCurrentDateTime directive accepted by
handleDateTimeDirectives pushes an injection configuration carrying the
fixed date format 2006-01-02T15:04:05Z07:00 with kind DATE_TIME — whatever
format: or customFormat: named — while a directive with both arguments, an
ill-typed format: argument, or an ill-typed customFormat: argument still
throws. -/
theorem injectCurrentDateTime_fixed_dateFormat (varDef : VariableDefinition)
    (d : GqlDirective) (op r : GraphQLOperation) (a : GqlArgument) :
    (handleDateTimeDirectives varDef op = Except.ok r →
      ∀ c ∈ r.VariablesConfiguration.injectVariables,
        c ∈ op.VariablesConfiguration.injectVariables ∨
          (c.dateFormat = "2006-01-02T15:04:05Z07:00" ∧
           c.variableKind = InjectVariableKind.DATE_TIME)) ∧
    (((d.arguments.getD []).find? (fun arg => arg.name = "format")).isSome = true →
      ((d.arguments.getD []).find? (fun arg => arg.name = "customFormat")).isSome = true →
      exceptIsError (handleDateTimeDirective varDef d op) = true) ∧
    ((d.arguments.getD []).find? (fun arg => arg.name = "format") = some a →
      (∀ s, a.value ≠ GqlValue.enumv s) →
      exceptIsError (handleDateTimeDirective varDef d op) = true) ∧
    ((d.arguments.getD []).find? (fun arg => arg.name = "format") = none →
      (d.arguments.getD []).find? (fun arg => arg.name = "customFormat") = some a →
      (∀ s, a.value ≠ GqlValue.strv s) →
      exceptIsError (handleDateTimeDirective varDef d op) = true) := by
  refine ⟨?_, handleDateTimeDirective_both_args_error varDef d op,
    fun hf hv => handleDateTimeDirective_bad_format_error varDef d op a hf hv,
    fun hn hf hv => handleDateTimeDirective_bad_customFormat_error varDef d op a hn hf hv⟩
  intro h
  exact handleDateTimeDirectives_fixed_aux varDef
    (directivesNamed varDef ["injectCurrentDateTime"]) op r h

/-- Witness for C9 at concrete directives: the ANSIC-format directive is
accepted yet the pushed configuration carries the fixed format and not the
ANSIC layout, and the three error shapes each throw. -/
theorem injectCurrentDateTime_fixed_dateFormat_witness :
    handleDateTimeDirectives dtVarDef dtBaseOp = Except.ok dtResultOp ∧
    (dtPushed.dateFormat = "2006-01-02T15:04:05Z07:00" ∧
      dtPushed.variableKind = InjectVariableKind.DATE_TIME) ∧
    dtPushed.dateFormat ≠ "Mon Jan _2 15:04:05 2006" ∧
    exceptIsError (handleDateTimeDirective dtVarDef dtBothDirective dtBaseOp) = true ∧
    exceptIsError (handleDateTimeDirective dtVarDef dtBadFormatDirective dtBaseOp) = true ∧
    exceptIsError (handleDateTimeDirective dtVarDef dtBadCustomDirective dtBaseOp) = true := by
  refine ⟨rfl, ?_, by decide, ?_, ?_, ?_⟩
  · have h := (injectCurrentDateTime_fixed_dateFormat dtVarDef dtBothDirective dtBaseOp
      dtResultOp dtBadFormatArg).1 rfl dtPushed (by simp [dtResultOp])
    rcases h with hmem | hfix
    · exact absurd hmem (by simp [dtBaseOp])
    · exact hfix
  · exact (injectCurrentDateTime_fixed_dateFormat dtVarDef dtBothDirective dtBaseOp
      dtResultOp dtBadFormatArg).2.1 (by rfl) (by rfl)
  · exact (injectCurrentDateTime_fixed_dateFormat dtVarDef dtBadFormatDirective dtBaseOp
      dtResultOp dtBadFormatArg).2.2.1 (by rfl) (fun s => by simp [dtBadFormatArg])
  · exact (injectCurrentDateTime_fixed_dateFormat dtVarDef dtBadCustomDirective dtBaseOp
      dtResultOp dtBadCustomArg).2.2.2 (by rfl) (by rfl) (fun s => by simp [dtBadCustomArg])

/-- Helper: the final authentication adjustment never changes the
authorization config. -/
theorem finalizeAuth_preserves_authz (op : GraphQLOperation) :
    (finalizeAuth op).AuthorizationConfig = op.AuthorizationConfig := by
  unfold finalizeAuth
  split <;> dsimp only <;> split <;> rfl

/-- Helper: an operation with a claim or a role entry leaves finalizeAuth
with authentication required. -/
theorem finalizeAuth_required (op : GraphQLOperation)
    (h : op.AuthorizationConfig.claims ≠ [] ∨
      op.AuthorizationConfig.roleConfig.requireMatchAll ≠ [] ∨
      op.AuthorizationConfig.roleConfig.requireMatchAny ≠ [] ∨
      op.AuthorizationConfig.roleConfig.denyMatchAll ≠ [] ∨
      op.AuthorizationConfig.roleConfig.denyMatchAny ≠ []) :
    (finalizeAuth op).AuthenticationConfig.required = true := by
  unfold finalizeAuth
  split
  · dsimp only
    split
    · rfl
    · rfl
  · dsimp only
    split
    · rfl
    · rename_i h1 h2
      exfalso
      push_neg at h1 h2
      have e1 : op.AuthorizationConfig.roleConfig.denyMatchAny.length = 0 := by omega
      have e2 : op.AuthorizationConfig.roleConfig.denyMatchAll.length = 0 := by omega
      have e3 : op.AuthorizationConfig.roleConfig.requireMatchAll.length = 0 := by omega
      have e4 : op.AuthorizationConfig.roleConfig.requireMatchAny.length = 0 := by omega
      rcases h with hcl | hr | hr | hr | hr
      · exact hcl (List.length_eq_zero.mp h2)
      · exact hr (List.length_eq_zero.mp e3)
      · exact hr (List.length_eq_zero.mp e4)
      · exact hr (List.length_eq_zero.mp e2)
      · exact hr (List.length_eq_zero.mp e1)

/-- Helper: a successfully built operation is the finalizeAuth of some
intermediate operation. -/
theorem buildOperation_factor (wg : Option (List String))
    (cc : List (String × CustomClaim)) (file : GraphQLOperationFile)
    (node : OperationNode) (op : GraphQLOperation)
    (h : buildOperation wg cc file node = Except.ok op) : ∃ x, op = finalizeAuth x := by
  unfold buildOperation at h
  dsimp only at h
  obtain ⟨op0, h0, h1⟩ := except_bind_ok h
  simp [pure, Except.pure] at h1
  exact ⟨_, h1.symm⟩

/-- Helper: every operation collected by the per-file visitor factors
through finalizeAuth. -/
theorem visit_factor (wg : Option (List String)) (cc : List (String × CustomClaim))
    (file : GraphQLOperationFile) (nodes : List OperationNode) (op : GraphQLOperation) :
    op ∈ (visitOperationNodes wg cc file nodes).2.1 → ∃ x, op = finalizeAuth x := by
  induction nodes with
  | nil => intro h; simp [visitOperationNodes] at h
  | cons node rest ih =>
    intro h
    unfold visitOperationNodes at h
    by_cases hv : node.validationErrors.length > 0
    · rw [if_pos hv] at h
      exact ih h
    · rw [if_neg hv] at h
      rcases hb : buildOperation wg cc file node with e | opb
      · rw [hb] at h; simp at h
      · rw [hb] at h
        simp at h
        rcases h with heq | hmem
        · subst heq; exact buildOperation_factor _ _ _ _ _ hb
        · exact ih hmem

/-- Helper: every operation returned for one file factors through
finalizeAuth. -/
theorem processFile_factor (wg : Option (List String)) (cc : List (String × CustomClaim))
    (f : GraphQLOperationFile) (op : GraphQLOperation) :
    op ∈ (processOperationFile wg cc f).2 → ∃ x, op = finalizeAuth x := by
  intro h
  unfold processOperationFile at h
  rcases hp : f.parsed with e | nodes <;> rw [hp] at h <;> dsimp only at h
  · simp at h
  · have hvf := visit_factor wg cc f nodes op
    rcases hv : visitOperationNodes wg cc f nodes with ⟨ls, ops, err⟩
    rw [hv] at hvf h
    cases err with
    | none => dsimp only at h hvf; exact hvf h
    | some e2 => dsimp only at h hvf; exact hvf h

/-- Helper: every operation returned over a file list factors through
finalizeAuth. -/
theorem processFiles_factor (wg : Option (List String)) (cc : List (String × CustomClaim))
    (fs : List GraphQLOperationFile) (op : GraphQLOperation) :
    op ∈ (processOperationFiles wg cc fs).2 → ∃ x, op = finalizeAuth x := by
  induction fs with
  | nil => intro h; simp [processOperationFiles] at h
  | cons f fs ih =>
    intro h
    unfold processOperationFiles at h
    dsimp only at h
    rw [List.mem_append] at h
    rcases h with h | h
    · exact processFile_factor wg cc f op h
    · exact ih h

/-- C8: every operation produced by parseGraphQLOperations whose
authorization config has a non-empty claim list or any non-empty role list
has authentication required. -/
theorem parsed_operations_auth_invariant (schema : SchemaModel)
    (loadOut : LoadOperationsOutput) (opts : ParseOperationsOptions) (op : GraphQLOperation)
    (hmem : op ∈ (parseGraphQLOperations schema loadOut opts).2.operations)
    (hne : op.AuthorizationConfig.claims ≠ [] ∨
      op.AuthorizationConfig.roleConfig.requireMatchAll ≠ [] ∨
      op.AuthorizationConfig.roleConfig.requireMatchAny ≠ [] ∨
      op.AuthorizationConfig.roleConfig.denyMatchAll ≠ [] ∨
      op.AuthorizationConfig.roleConfig.denyMatchAny ≠ []) :
    op.AuthenticationConfig.required = true := by
  unfold parseGraphQLOperations at hmem
  dsimp only at hmem
  obtain ⟨x, hx⟩ := processFiles_factor _ _ _ _ hmem
  subst hx
  rw [finalizeAuth_preserves_authz] at hne
  exact finalizeAuth_required x hne

/-- Witness for C8 at a concrete schema and file: the rbac-carrying
operation is produced with a non-empty requireMatchAll and authentication
required. -/
theorem parsed_operations_auth_invariant_witness :
    c8Op ∈ (parseGraphQLOperations c8Schema ⟨some [c8File]⟩ c8Opts).2.operations ∧
    c8Op.AuthorizationConfig.roleConfig.requireMatchAll ≠ [] ∧
    c8Op.AuthenticationConfig.required = true := by
  refine ⟨?_, by decide, ?_⟩
  · have h : (parseGraphQLOperations c8Schema ⟨some [c8File]⟩ c8Opts).2.operations = [c8Op] := by
      rfl
    rw [h]
    exact List.mem_singleton.mpr rfl
  · refine parsed_operations_auth_invariant c8Schema ⟨some [c8File]⟩ c8Opts c8Op ?_ ?_
    · have h : (parseGraphQLOperations c8Schema ⟨some [c8File]⟩ c8Opts).2.operations = [c8Op] := by
        rfl
      rw [h]
      exact List.mem_singleton.mpr rfl
    · exact Or.inr (Or.inl (by decide))

/-- Helper: file processing distributes over list append — each file is
processed independently and results are concatenated in order. -/
theorem processOperationFiles_append (wg : Option (List String))
    (cc : List (String × CustomClaim)) (fs1 fs2 : List GraphQLOperationFile) :
    processOperationFiles wg cc (fs1 ++ fs2) =
      ((processOperationFiles wg cc fs1).1 ++ (processOperationFiles wg cc fs2).1,
       (processOperationFiles wg cc fs1).2 ++ (processOperationFiles wg cc fs2).2) := by
  induction fs1 with
  | nil => simp [processOperationFiles]
  | cons f fs ih =>
    simp [processOperationFiles, ih, List.append_assoc]

/-- C7: parseGraphQLOperations isolates failures — files are processed
independently (logs and operations concatenate over file-list append, so a
failing file never stops later files), a file whose parse throws
contributes exactly the catch-block logs and no operations, an operation
failing validation contributes exactly the two error logs and is excluded
while the remaining nodes are still visited, and a node whose directive
handling throws lands in the per-file catch with the already-collected
operations kept — the call always returns a ParsedOperations value. -/
theorem parseGraphQLOperations_error_isolation
    (schema : SchemaModel) (opts : ParseOperationsOptions)
    (fs1 fs2 : List GraphQLOperationFile) (f : GraphQLOperationFile)
    (e e2 : String) (node : OperationNode) (rest : List OperationNode)
    (ls : List LogEvent) (ops : List GraphQLOperation) :
    ((parseGraphQLOperations schema ⟨some (fs1 ++ fs2)⟩ opts).1 =
        (parseGraphQLOperations schema ⟨some fs1⟩ opts).1 ++
          (parseGraphQLOperations schema ⟨some fs2⟩ opts).1 ∧
      (parseGraphQLOperations schema ⟨some (fs1 ++ fs2)⟩ opts).2.operations =
        (parseGraphQLOperations schema ⟨some fs1⟩ opts).2.operations ++
          (parseGraphQLOperations schema ⟨some fs2⟩ opts).2.operations) ∧
    (f.parsed = Except.error e →
      parseGraphQLOperations schema ⟨some [f]⟩ opts = (catchLogs e f, ⟨[]⟩)) ∧
    (node.validationErrors ≠ [] →
      visitOperationNodes schema.wgRoleEnumValues (opts.customClaims.getD []) f
          (node :: rest) =
        (LogEvent.errorValidation f.file_path :: LogEvent.errorSkipping ::
          (visitOperationNodes schema.wgRoleEnumValues (opts.customClaims.getD []) f rest).1,
         (visitOperationNodes schema.wgRoleEnumValues (opts.customClaims.getD []) f rest).2.1,
         (visitOperationNodes schema.wgRoleEnumValues (opts.customClaims.getD []) f rest).2.2)) ∧
    (f.parsed = Except.ok (node :: rest) →
      visitOperationNodes schema.wgRoleEnumValues (opts.customClaims.getD []) f
          (node :: rest) = (ls, ops, some e2) →
      processOperationFile schema.wgRoleEnumValues (opts.customClaims.getD []) f =
        (ls ++ catchLogs e2 f, ops)) := by
  refine ⟨⟨?_, ?_⟩, ?_, ?_, ?_⟩
  · simp [parseGraphQLOperations, processOperationFiles_append]
  · simp [parseGraphQLOperations, processOperationFiles_append]
  · intro hp
    simp [parseGraphQLOperations, processOperationFiles, processOperationFile, hp]
  · intro hv
    have hlen : node.validationErrors.length > 0 := List.length_pos.mpr hv
    conv_lhs => unfold visitOperationNodes
    rw [if_pos hlen]
  · intro hp hvisit
    unfold processOperationFile
    rw [hp]
    dsimp only
    rw [hvisit]

/-- Witness for C7 at concrete files: a parse-throwing file is logged with
no operations while the following file is still processed, a
validation-failing node is logged and excluded, and a directive-throwing
node lands in the catch logs. -/
theorem parseGraphQLOperations_error_isolation_witness :
    (parseGraphQLOperations c8Schema ⟨some ([c7BadFile] ++ [c8File])⟩ c8Opts).2.operations =
      (parseGraphQLOperations c8Schema ⟨some [c7BadFile]⟩ c8Opts).2.operations ++
        (parseGraphQLOperations c8Schema ⟨some [c8File]⟩ c8Opts).2.operations ∧
    parseGraphQLOperations c8Schema ⟨some [c7BadFile]⟩ c8Opts =
      (catchLogs "syntax error" c7BadFile, ⟨[]⟩) ∧
    visitOperationNodes c8Schema.wgRoleEnumValues (c8Opts.customClaims.getD []) c7FileMixed
        (c7NodeInvalid :: []) =
      (LogEvent.errorValidation c7FileMixed.file_path :: LogEvent.errorSkipping ::
        (visitOperationNodes c8Schema.wgRoleEnumValues (c8Opts.customClaims.getD [])
          c7FileMixed []).1,
       (visitOperationNodes c8Schema.wgRoleEnumValues (c8Opts.customClaims.getD [])
          c7FileMixed []).2.1,
       (visitOperationNodes c8Schema.wgRoleEnumValues (c8Opts.customClaims.getD [])
          c7FileMixed []).2.2) ∧
    processOperationFile c8Schema.wgRoleEnumValues (c8Opts.customClaims.getD []) c7ThrowFile =
      ([] ++ catchLogs "fromClaim directive on operation T has no arguments" c7ThrowFile, []) := by
  refine ⟨?_, ?_, ?_, ?_⟩
  · exact (parseGraphQLOperations_error_isolation c8Schema c8Opts [c7BadFile] [c8File]
      c7BadFile "x" "y" c7NodeInvalid [] [] []).1.2
  · exact (parseGraphQLOperations_error_isolation c8Schema c8Opts [] [] c7BadFile
      "syntax error" "y" c7NodeInvalid [] [] []).2.1 rfl
  · exact (parseGraphQLOperations_error_isolation c8Schema c8Opts [] [] c7FileMixed
      "x" "y" c7NodeInvalid [] [] []).2.2.1 (by decide)
  · exact (parseGraphQLOperations_error_isolation c8Schema c8Opts [] [] c7ThrowFile
      "x" "fromClaim directive on operation T has no arguments" c7ThrowNode [] [] []).2.2.2
      rfl rfl

end WunderGraph
